import Mathlib

/-!
Shallow embedding of the openlayers-prefetching engine
(`src/PrefetchConstants.ts`, `src/PrefetchStats.ts`, `src/PrefetchPlanner.ts`,
`src/TileLoader.ts`, `src/PrefetchScheduler.ts`, `src/PrefetchManager.ts`) and
proofs about the claims of its specification.

Modelling conventions:
* JS numbers used as counters are `Nat`; the `Math.max(0, x - 1)` guards of the
  source coincide with truncated `Nat` subtraction.
* Priorities, coordinates and resolutions are `Rat` (the source only ever adds,
  subtracts, multiplies and divides by powers of ten, so rationals are exact).
* Layers are identified by their `getUid` value, modelled as a `Nat`; reference
  equality between layer objects is equality of uids.
* Host collaborators (the OpenLayers map, view geometry, tile grids, tile
  handles) are modelled at the boundary described in the specification: a
  `OLMap` record of pure functions.  `getForViewAndSize` is OpenLayers library
  geometry and is therefore a host-supplied function field.
* Timers, DOM events and network completions are modelled as explicit state
  (a pending-timer flag, completion events fed to the loader).  Date.now()
  timestamps carried by tasks and error records are omitted: they are
  wall-clock data that no claim depends on.
* The stable `Array.prototype.sort` with comparator `(a, b) => a.priority -
  b.priority` is modelled by the stable `List.insertionSort` on the
  priority-`≤` relation.
-/

/-- The five prefetch categories of `PrefetchConstants.ts` (`PrefetchCategory`). -/
inductive PrefetchCategory
  | spatial
  | bgViewport
  | bgBuffer
  | nextNavActive
  | nextNavBackground
deriving DecidableEq, Repr

/-- Embeds `DEFAULT_CATEGORY_PRIORITIES` and runtime category priorities: one numeric
weight per category (`Record<PrefetchCategoryKey, number>`). -/
structure CategoryPriorities where
  spatial : ℚ
  bgViewport : ℚ
  bgBuffer : ℚ
  nextNavActive : ℚ
  nextNavBackground : ℚ
deriving DecidableEq, Repr

def CategoryPriorities.get (p : CategoryPriorities) : PrefetchCategory → ℚ
  | .spatial => p.spatial
  | .bgViewport => p.bgViewport
  | .bgBuffer => p.bgBuffer
  | .nextNavActive => p.nextNavActive
  | .nextNavBackground => p.nextNavBackground

/-- Embeds `DEFAULT_CATEGORY_PRIORITIES` of `PrefetchConstants.ts`: 1,2,3,4,5. -/
def DEFAULT_CATEGORY_PRIORITIES : CategoryPriorities := ⟨1, 2, 3, 4, 5⟩

/-- Embeds `getCategoryName` of `PrefetchConstants.ts` (closed over the five tags). -/
def getCategoryName : PrefetchCategory → String
  | .spatial => "Spatial (active)"
  | .bgViewport => "BG viewport"
  | .bgBuffer => "BG buffer"
  | .nextNavActive => "Next nav (active)"
  | .nextNavBackground => "Next nav (BG)"

/-- Per-category counters (`PrefetchCategoryStats`). -/
structure CategoryStats where
  queued : ℕ
  loading : ℕ
  loaded : ℕ
  errors : ℕ
deriving DecidableEq, Repr

def CategoryStats.initial : CategoryStats := ⟨0, 0, 0, 0⟩

/-- A structured error record (`PrefetchError`); the `Date.now()` timestamp is
omitted (wall-clock). -/
structure PrefetchError where
  tileCoord : ℤ × ℤ × ℤ
  category : String
  layerName : String
  reason : String
deriving DecidableEq, Repr

/-- State of `PrefetchStats` (`src/PrefetchStats.ts`): global loaded/error
counters, per-category counters, and the capped error log.  The subscriber
callbacks (`listeners_`) are outside the pure state. -/
structure StatsState where
  loadedCount : ℕ
  errorCount : ℕ
  spatial : CategoryStats
  bgViewport : CategoryStats
  bgBuffer : CategoryStats
  nextNavActive : CategoryStats
  nextNavBackground : CategoryStats
  errorLog : List PrefetchError
deriving DecidableEq, Repr

def StatsState.initial : StatsState :=
  ⟨0, 0, .initial, .initial, .initial, .initial, .initial, []⟩

def StatsState.get (s : StatsState) : PrefetchCategory → CategoryStats
  | .spatial => s.spatial
  | .bgViewport => s.bgViewport
  | .bgBuffer => s.bgBuffer
  | .nextNavActive => s.nextNavActive
  | .nextNavBackground => s.nextNavBackground

def StatsState.modifyCat (s : StatsState) (c : PrefetchCategory)
    (f : CategoryStats → CategoryStats) : StatsState :=
  match c with
  | .spatial => { s with spatial := f s.spatial }
  | .bgViewport => { s with bgViewport := f s.bgViewport }
  | .bgBuffer => { s with bgBuffer := f s.bgBuffer }
  | .nextNavActive => { s with nextNavActive := f s.nextNavActive }
  | .nextNavBackground => { s with nextNavBackground := f s.nextNavBackground }

/-- Embeds `PrefetchStats.resetQueuedCounts`: the source zeroes BOTH the `queued` and
the `loading` counter of every category. -/
def StatsState.resetQueuedCounts (s : StatsState) : StatsState :=
  { s with
    spatial := { s.spatial with queued := 0, loading := 0 }
    bgViewport := { s.bgViewport with queued := 0, loading := 0 }
    bgBuffer := { s.bgBuffer with queued := 0, loading := 0 }
    nextNavActive := { s.nextNavActive with queued := 0, loading := 0 }
    nextNavBackground := { s.nextNavBackground with queued := 0, loading := 0 } }

/-- Embeds `PrefetchStats.recordQueued`. -/
def StatsState.recordQueued (s : StatsState) (c : PrefetchCategory) : StatsState :=
  s.modifyCat c fun cs => { cs with queued := cs.queued + 1 }

/-- Embeds `PrefetchStats.setQueuedCount`. -/
def StatsState.setQueuedCount (s : StatsState) (c : PrefetchCategory) (q : ℕ) : StatsState :=
  s.modifyCat c fun cs => { cs with queued := q }

/-- Embeds `PrefetchStats.recordLoadingStart` (`Math.max(0, queued - 1)` is `Nat`
subtraction). -/
def StatsState.recordLoadingStart (s : StatsState) (c : PrefetchCategory) : StatsState :=
  s.modifyCat c fun cs => { cs with loading := cs.loading + 1, queued := cs.queued - 1 }

/-- Embeds `PrefetchStats.recordLoadingEnd`. -/
def StatsState.recordLoadingEnd (s : StatsState) (c : PrefetchCategory) : StatsState :=
  s.modifyCat c fun cs => { cs with loading := cs.loading - 1 }

/-- Embeds `PrefetchStats.recordAlreadyLoaded`. -/
def StatsState.recordAlreadyLoaded (s : StatsState) (c : PrefetchCategory) : StatsState :=
  let s := { s with loadedCount := s.loadedCount + 1 }
  s.modifyCat c fun cs => { cs with loaded := cs.loaded + 1, queued := cs.queued - 1 }

/-- Embeds `PrefetchStats.recordLoaded`. -/
def StatsState.recordLoaded (s : StatsState) (c : PrefetchCategory) : StatsState :=
  let s := { s with loadedCount := s.loadedCount + 1 }
  s.modifyCat c fun cs => { cs with loaded := cs.loaded + 1 }

/-- Embeds `PrefetchStats.recordError`: bumps the global error counter, the category
error counter, and prepends to the 50-entry capped error log. -/
def StatsState.recordError (s : StatsState) (c : PrefetchCategory)
    (e : PrefetchError) : StatsState :=
  let s := { s with errorCount := s.errorCount + 1 }
  let s := s.modifyCat c fun cs => { cs with errors := cs.errors + 1 }
  { s with errorLog := (e :: s.errorLog).take 50 }

/-- Embeds `PrefetchStats.recordEmpty`: bumps ONLY the per-category error counter
(neither `errorCount_` nor the error log are touched). -/
def StatsState.recordEmpty (s : StatsState) (c : PrefetchCategory) : StatsState :=
  s.modifyCat c fun cs => { cs with errors := cs.errors + 1 }

/-- Embeds `PrefetchStats.dispose`: clears subscribers (outside the model) and the
error log. -/
def StatsState.disposeStats (s : StatsState) : StatsState :=
  { s with errorLog := [] }

/-- An anticipated future viewport (`PrefetchTarget`). -/
structure PrefetchTarget where
  center : ℚ × ℚ
  zoom : ℚ
deriving DecidableEq, Repr

/-- A registry entry (`BackgroundLayerEntry`): layer uid plus priority. -/
structure BackgroundLayerEntry where
  layer : ℕ
  priority : ℚ
deriving DecidableEq, Repr

/-- The immutable snapshot published by `PrefetchStats.getSnapshot`. -/
structure StatsSnapshot where
  queued : ℕ
  loading : ℕ
  loaded : ℕ
  errors : ℕ
  paused : Bool
  spatial : CategoryStats
  bgViewport : CategoryStats
  bgBuffer : CategoryStats
  nextNavActive : CategoryStats
  nextNavBackground : CategoryStats
  nextTargets : List PrefetchTarget
  recentErrors : List PrefetchError
  categoryPriorities : CategoryPriorities
deriving DecidableEq, Repr

/-- Embeds `PrefetchStats.getSnapshot`. -/
def StatsState.getSnapshot (s : StatsState) (queueLength loadingSize : ℕ)
    (paused : Bool) (nextTargets : List PrefetchTarget)
    (prios : CategoryPriorities) : StatsSnapshot :=
  { queued := queueLength
    loading := loadingSize
    loaded := s.loadedCount
    errors := s.errorCount
    paused := paused
    spatial := s.spatial
    bgViewport := s.bgViewport
    bgBuffer := s.bgBuffer
    nextNavActive := s.nextNavActive
    nextNavBackground := s.nextNavBackground
    nextTargets := nextTargets
    recentErrors := s.errorLog
    categoryPriorities := prios }

/-- A planned tile load (`PrefetchTask`); the `Date.now()` timestamp is
omitted (wall-clock). -/
structure PrefetchTask where
  id : String
  priority : ℚ
  category : PrefetchCategory
  layer : ℕ
  tileCoord : ℤ × ℤ × ℤ
deriving DecidableEq, Repr

/-- The task id of `PrefetchPlanner.enqueueTile_`:
`getUid(layer) + "/" + z + "/" + x + "/" + y`. -/
def tileKey (layerUid : ℕ) (z x y : ℤ) : String :=
  toString layerUid ++ "/" ++ toString z ++ "/" ++ toString x ++ "/" ++ toString y

/-- The comparator `(a, b) => a.priority - b.priority` as an ordering
relation. -/
def taskLE (a b : PrefetchTask) : Prop := a.priority ≤ b.priority

instance : DecidableRel taskLE := fun a b =>
  inferInstanceAs (Decidable (a.priority ≤ b.priority))

instance : IsTotal PrefetchTask taskLE := ⟨fun a b => le_total a.priority b.priority⟩

instance : IsTrans PrefetchTask taskLE := ⟨fun _ _ _ h₁ h₂ => le_trans h₁ h₂⟩

/-- Host tile lifecycle states (`ol/TileState`). -/
inductive TileState
  | idle
  | loading
  | loaded
  | error
  | empty
deriving DecidableEq, Repr

/-- A host tile handle at the boundary the engine consumes: a lifecycle
state.  The one-shot change subscription and the load trigger are modelled as
loader effects. -/
structure Tile where
  state : TileState
deriving DecidableEq, Repr

/-- A geographic extent `[minX, minY, maxX, maxY]` (`ol/extent`). -/
structure Extent where
  minX : ℚ
  minY : ℚ
  maxX : ℚ
  maxY : ℚ
deriving DecidableEq, Repr

/-- Embeds `buffer` of `ol/extent`: grow an extent by `v` on every side. -/
def bufferExtent (e : Extent) (v : ℚ) : Extent :=
  ⟨e.minX - v, e.minY - v, e.maxX + v, e.maxY + v⟩

/-- An integer tile range (`ol/TileRange`). -/
structure TileRange where
  minX : ℤ
  maxX : ℤ
  minY : ℤ
  maxY : ℤ
deriving DecidableEq, Repr

/-- Embeds `TileRange.containsXY` of OpenLayers. -/
def TileRange.containsXY (r : TileRange) (x y : ℤ) : Bool :=
  decide (r.minX ≤ x) && decide (x ≤ r.maxX) && decide (r.minY ≤ y) && decide (y ≤ r.maxY)

/-- A host tile grid: `getTileRangeForExtentAndZ`. -/
structure TileGrid where
  getTileRangeForExtentAndZ : Extent → ℤ → TileRange

/-- A host tile source: its grid (`getTileGridForProjection`, the projection is
fixed per map) and `getTile(z, x, y, pixelDensity)`.  `none` models both a
thrown exception and a null tile (the source catches the former and
null-checks the latter, with identical effect). -/
structure TileSource where
  tileGrid : TileGrid
  getTile : ℤ → ℤ → ℤ → ℚ → Option Tile

/-- The JS `Math.round` (round half towards plus infinity). -/
def jsRound (q : ℚ) : ℤ := ⌊q + 1 / 2⌋

/-- The host view at the boundary the engine consumes (`map.getView()`). -/
structure OLView where
  isDef : Bool
  center : ℚ × ℚ
  resolution : ℚ
  rotation : ℚ
  zoom : Option ℚ
  getResolutionForZoom : ℚ → ℚ

/-- The host map at the boundary the engine consumes.  `getSource` models
`layer.getSource()` for each layer uid; `tilesLoading` models
`map.tileQueue_?.getTilesLoading()` (`none` = the host exposes no tile queue);
`forViewAndSize` is the `getForViewAndSize` geometry of `ol/extent`
(host library code, supplied as data); `pixelDensity` is the resolved
`map.getPixelRatio?.() ?? 1` value. -/
structure OLMap where
  view : Option OLView
  size : Option (ℕ × ℕ)
  pixelDensity : ℚ
  getSource : ℕ → Option TileSource
  tilesLoading : Option ℕ
  forViewAndSize : (ℚ × ℚ) → ℚ → ℚ → (ℕ × ℕ) → Extent

/-- The list of integers from `lo` to `hi` inclusive (the `for` loops of the
planner over a tile range). -/
def intRange (lo hi : ℤ) : List ℤ :=
  (List.range (hi + 1 - lo).toNat).map fun i => lo + (i : ℤ)

/-- The mutable context threaded through one planning pass
(`PrefetchPlannerContext`). -/
structure PlannerCtx where
  queue : List PrefetchTask
  seenTiles : List String
  pixelDensity : ℚ
  stats : StatsState

/-- Persistent planner state (`PrefetchPlanner` fields). -/
structure PrefetchPlanner where
  spatialBufferFactor : ℚ
  lastNextTargetsKey : Option String
deriving DecidableEq, Repr

/-- Embeds `PrefetchPlanner.enqueueTile_`: dedup on the tile key, resolve the tile
handle (abort silently on failure), skip tiles already loaded or loading,
otherwise push the task and count it as queued. -/
def enqueueTile (ctx : PlannerCtx) (layer : ℕ) (source : TileSource)
    (z x y : ℤ) (priority : ℚ) (category : PrefetchCategory) : PlannerCtx :=
  let key := tileKey layer z x y
  if key ∈ ctx.seenTiles then ctx
  else
    let ctx := { ctx with seenTiles := key :: ctx.seenTiles }
    match source.getTile z x y ctx.pixelDensity with
    | none => ctx
    | some tile =>
      if tile.state = .loaded ∨ tile.state = .loading then ctx
      else
        { ctx with
          queue := ctx.queue ++
            [{ id := key, priority := priority, category := category,
               layer := layer, tileCoord := (z, x, y) }]
          stats := ctx.stats.recordQueued category }

/-- Embeds `PrefetchPlanner.enqueueViewportTiles_`: every tile of the range covering
the extent at zoom `z`. -/
def enqueueViewportTiles (ctx : PlannerCtx) (layer : ℕ)
    (getSource : ℕ → Option TileSource) (extent : Extent) (z : ℤ)
    (priority : ℚ) (category : PrefetchCategory) : PlannerCtx :=
  match getSource layer with
  | none => ctx
  | some source =>
    let tr := source.tileGrid.getTileRangeForExtentAndZ extent z
    (intRange tr.minX tr.maxX).foldl
      (fun c x =>
        (intRange tr.minY tr.maxY).foldl
          (fun c2 y => enqueueTile c2 layer source z x y priority category) c)
      ctx

/-- Embeds `PrefetchPlanner.enqueueSpatialBuffer_`: isotropic expansion of the
viewport by `(bufferFactor - 1) / 2` of the larger axial delta, then only the
offscreen tiles (those outside the unbuffered viewport range). -/
def PrefetchPlanner.enqueueSpatialBuffer (planner : PrefetchPlanner)
    (ctx : PlannerCtx) (layer : ℕ) (getSource : ℕ → Option TileSource)
    (viewExtent : Extent) (z : ℤ) (priority : ℚ)
    (category : PrefetchCategory) : PlannerCtx :=
  match getSource layer with
  | none => ctx
  | some source =>
    let extentWidth := viewExtent.maxX - viewExtent.minX
    let extentHeight := viewExtent.maxY - viewExtent.minY
    let bufferX := extentWidth * (planner.spatialBufferFactor - 1) / 2
    let bufferY := extentHeight * (planner.spatialBufferFactor - 1) / 2
    let bufferValue := max bufferX bufferY
    let bufferedExtent := bufferExtent viewExtent bufferValue
    let btr := source.tileGrid.getTileRangeForExtentAndZ bufferedExtent z
    let vtr := source.tileGrid.getTileRangeForExtentAndZ viewExtent z
    (intRange btr.minX btr.maxX).foldl
      (fun c x =>
        (intRange btr.minY btr.maxY).foldl
          (fun c2 y =>
            if vtr.containsXY x y then c2
            else enqueueTile c2 layer source z x y priority category) c)
      ctx

/-- One element of the `nextTargetsKey` join:
`center[0] + "|" + center[1] + "|" + zoom`. -/
def targetKeyPart (t : PrefetchTarget) : String :=
  toString t.center.1 ++ "|" ++ toString t.center.2 ++ "|" ++ toString t.zoom

/-- The body of the `for (let i = 0; i < nextTargets.length; i++)` loop of
`PrefetchPlanner.buildQueue`: enqueue target `i` with priority offset
`i * 0.1`. -/
def targetStep (planner : PrefetchPlanner) (map : OLMap) (view : OLView)
    (activeLayer : Option ℕ) (backgroundLayers : List BackgroundLayerEntry)
    (prios : CategoryPriorities) (mapSize : ℕ × ℕ) (i : ℕ)
    (tgt : PrefetchTarget) (ctx : PlannerCtx) : PlannerCtx :=
  let targetOffset : ℚ := (i : ℚ) * (1 / 10)
  let nextZ := jsRound tgt.zoom
  let nextResolution := view.getResolutionForZoom tgt.zoom
  let nextExtent := map.forViewAndSize tgt.center nextResolution 0 mapSize
  let ctx :=
    match activeLayer with
    | some a =>
      let c1 := enqueueViewportTiles ctx a map.getSource nextExtent nextZ
        (prios.nextNavActive + targetOffset) .nextNavActive
      planner.enqueueSpatialBuffer c1 a map.getSource nextExtent nextZ
        (prios.nextNavActive + targetOffset) .nextNavActive
    | none => ctx
  backgroundLayers.foldl
    (fun c e =>
      if activeLayer = some e.layer then c
      else
        enqueueViewportTiles c e.layer map.getSource nextExtent nextZ
          (prios.nextNavBackground + targetOffset + e.priority * (1 / 1000))
          .nextNavBackground)
    ctx

/-- The indexed loop over next targets. -/
def targetsLoop (planner : PrefetchPlanner) (map : OLMap) (view : OLView)
    (activeLayer : Option ℕ) (backgroundLayers : List BackgroundLayerEntry)
    (prios : CategoryPriorities) (mapSize : ℕ × ℕ) :
    ℕ → List PrefetchTarget → PlannerCtx → PlannerCtx
  | _, [], ctx => ctx
  | i, t :: rest, ctx =>
    targetsLoop planner map view activeLayer backgroundLayers prios mapSize
      (i + 1) rest
      (targetStep planner map view activeLayer backgroundLayers prios mapSize i t ctx)

/-- Result of a full planning pass: the sorted queue, the updated stats and
the updated planner state. -/
structure BuildResult where
  queue : List PrefetchTask
  stats : StatsState
  planner : PrefetchPlanner

/-- Embeds `PrefetchPlanner.buildQueue`, step for step: remember the previous
next-nav queued counts when the target set is unchanged, reset the queued
counters, bail out early when the viewport geometry is unresolvable, enqueue
the active spatial buffer, the background layers and every next target, apply
the display-continuity rule, and sort ascending by priority (stable). -/
def PrefetchPlanner.buildQueue (planner : PrefetchPlanner) (map : OLMap)
    (activeLayer : Option ℕ) (backgroundLayers : List BackgroundLayerEntry)
    (nextTargets : List PrefetchTarget) (prios : CategoryPriorities)
    (stats : StatsState) : BuildResult :=
  let nextTargetsKey : Option String :=
    if nextTargets.length > 0 then
      some (String.intercalate ";" (nextTargets.map targetKeyPart))
    else none
  let preserveNextCounts :=
    nextTargetsKey.isSome && nextTargetsKey == planner.lastNextTargetsKey
  let prevNextNavActive :=
    if preserveNextCounts then (stats.get .nextNavActive).queued else 0
  let prevNextNavBackground :=
    if preserveNextCounts then (stats.get .nextNavBackground).queued else 0
  let stats := stats.resetQueuedCounts
  match map.view with
  | none => ⟨[], stats, planner⟩
  | some view =>
    if !view.isDef then ⟨[], stats, planner⟩
    else
      match map.size with
      | none => ⟨[], stats, planner⟩
      | some mapSize =>
        let viewExtent :=
          map.forViewAndSize view.center view.resolution view.rotation mapSize
        match view.zoom with
        | none => ⟨[], stats, planner⟩
        | some zoom =>
          let z := jsRound zoom
          let ctx : PlannerCtx := ⟨[], [], map.pixelDensity, stats⟩
          let ctx :=
            match activeLayer with
            | some a =>
              planner.enqueueSpatialBuffer ctx a map.getSource viewExtent z
                prios.spatial .spatial
            | none => ctx
          let ctx := backgroundLayers.foldl
            (fun c e =>
              if activeLayer = some e.layer then c
              else
                enqueueViewportTiles c e.layer map.getSource viewExtent z
                  (prios.bgViewport + e.priority * (1 / 1000)) .bgViewport)
            ctx
          let ctx := targetsLoop planner map view activeLayer backgroundLayers
            prios mapSize 0 nextTargets ctx
          let planner2 :=
            if nextTargets.length = 0 then
              { planner with lastNextTargetsKey := none }
            else { planner with lastNextTargetsKey := nextTargetsKey }
          let stats2 :=
            if nextTargets.length = 0 then ctx.stats
            else if preserveNextCounts then
              let s := ctx.stats
              let s :=
                if (s.get .nextNavActive).queued = 0 then
                  s.setQueuedCount .nextNavActive prevNextNavActive
                else s
              if (s.get .nextNavBackground).queued = 0 then
                s.setQueuedCount .nextNavBackground prevNextNavBackground
              else s
            else ctx.stats
          ⟨List.insertionSort taskLE ctx.queue, stats2, planner2⟩

/-- Embeds `PrefetchPlanner.buildActiveSpatialQueue`: only step 3 of the algorithm
(the active-layer offscreen buffer), with the same geometry. -/
def PrefetchPlanner.buildActiveSpatialQueue (planner : PrefetchPlanner)
    (map : OLMap) (activeLayer : ℕ) (prios : CategoryPriorities)
    (stats : StatsState) : List PrefetchTask × StatsState :=
  match map.view with
  | none => ([], stats)
  | some view =>
    if !view.isDef then ([], stats)
    else
      match map.size with
      | none => ([], stats)
      | some mapSize =>
        let viewExtent :=
          map.forViewAndSize view.center view.resolution view.rotation mapSize
        match view.zoom with
        | none => ([], stats)
        | some zoom =>
          let z := jsRound zoom
          let ctx : PlannerCtx := ⟨[], [], map.pixelDensity, stats⟩
          let ctx := planner.enqueueSpatialBuffer ctx activeLayer map.getSource
            viewExtent z prios.spatial .spatial
          (List.insertionSort taskLE ctx.queue, ctx.stats)

/-- The in-flight map of `TileLoader` (`loading_ : Map<string, {task, unlisten}>`),
in insertion order; the `unlisten` closures are modelled by the
listener-detach effects of the operations below. -/
structure LoaderState where
  loading : List (String × PrefetchTask)
deriving DecidableEq, Repr

/-- Embeds `TileLoader.activeCount`. -/
def LoaderState.activeCount (l : LoaderState) : ℕ := l.loading.length

/-- JS `Map.prototype.set`: replace in place, else append. -/
def mapSet (m : List (String × PrefetchTask)) (k : String) (v : PrefetchTask) :
    List (String × PrefetchTask) :=
  if m.any (fun e => e.1 == k) then m.map (fun e => if e.1 == k then (k, v) else e)
  else m ++ [(k, v)]

/-- Result of `TileLoader.startTask`: the new in-flight map and stats, plus
whether a change listener was attached and whether `tile.load()` was
triggered. -/
structure StartTaskResult where
  loader : LoaderState
  stats : StatsState
  listenerAttached : Bool
  loadTriggered : Bool
deriving Repr

/-- Embeds `TileLoader.startTask`: resolve the source and tile handle (silent abort
on failure), record an already-loaded hit for a loaded tile, no-op for a
loading tile, otherwise mark in-flight, count loading-start, attach the
one-shot listener and trigger the load. -/
def TileLoader.startTask (loader : LoaderState) (map : OLMap)
    (stats : StatsState) (task : PrefetchTask) : StartTaskResult :=
  match map.getSource task.layer with
  | none => ⟨loader, stats, false, false⟩
  | some source =>
    match source.getTile task.tileCoord.1 task.tileCoord.2.1 task.tileCoord.2.2
        map.pixelDensity with
    | none => ⟨loader, stats, false, false⟩
    | some tile =>
      if tile.state = .loaded then
        ⟨loader, stats.recordAlreadyLoaded task.category, false, false⟩
      else if tile.state = .loading then
        ⟨loader, stats, false, false⟩
      else
        ⟨⟨mapSet loader.loading task.id task⟩,
          stats.recordLoadingStart task.category, true, true⟩

/-- Embeds `TileLoader.buildErrorEntry_`.  The layer name lookup, the attached
`_prefetchError` detail and the hostname of the first source URL are host
data, passed in resolved form (`sourceHost = none` covers a source without
`getUrls`, an empty URL list, and a URL the host fails to parse). -/
def TileLoader.buildErrorEntry (task : PrefetchTask) (layerName : Option String)
    (layerLabel : Option String) (tileErr : Option String)
    (sourceHost : Option String) : PrefetchError :=
  let name := ((layerName.or layerLabel).getD "unknown")
  let reason :=
    match tileErr with
    | some r => r
    | none =>
      match sourceHost with
      | some h => "Tile load failed (" ++ h ++ ")"
      | none => "Tile load failed"
  ⟨task.tileCoord, getCategoryName task.category, name, reason⟩

/-- Result of a completion event delivered to the `onTileChange` listener of
`TileLoader.startTask`. -/
structure CompletionResult where
  loader : LoaderState
  stats : StatsState
  listenerDetached : Bool
  slotFreed : Bool
deriving Repr

/-- The `onTileChange` listener body of `TileLoader.startTask`, applied to the
new lifecycle state of the tile: ignore intermediate states, detach on a
final state, drop untracked (abandoned) tasks silently, otherwise remove the
task from the in-flight map, end its loading count and dispatch to
loaded/error/empty accounting; `errEntry` is the record built by
`buildErrorEntry_`. -/
def TileLoader.onTileChange (loader : LoaderState) (stats : StatsState)
    (task : PrefetchTask) (newState : TileState) (errEntry : PrefetchError) :
    CompletionResult :=
  if newState ≠ .loaded ∧ newState ≠ .error ∧ newState ≠ .empty then
    ⟨loader, stats, false, false⟩
  else if !(loader.loading.any (fun e => e.1 == task.id)) then
    ⟨loader, stats, true, false⟩
  else
    let loader' : LoaderState := ⟨loader.loading.filter (fun e => !(e.1 == task.id))⟩
    let stats := stats.recordLoadingEnd task.category
    let stats :=
      match newState with
      | .loaded => stats.recordLoaded task.category
      | .error => stats.recordError task.category errEntry
      | _ => stats.recordEmpty task.category
    ⟨loader', stats, true, true⟩

/-- Embeds `TileLoader.abandonAll`: detach every in-flight listener, end every
loading count, clear the map (the underlying network requests are not
cancelled; a late completion finds no tracked task). -/
def TileLoader.abandonAll (loader : LoaderState) (stats : StatsState) :
    LoaderState × StatsState :=
  (⟨[]⟩, loader.loading.foldl (fun s e => s.recordLoadingEnd e.2.category) stats)

/-- Modelled from the spec: `TileLoader.abandonNonActive(activeLayer)` is
invoked by `PrefetchManager.onMoveStart_` but is missing from the provided
`TileLoader.ts` source (only `abandonAll` and `dispose` appear there).  Per
the spec it is the "same" as `abandonAll` "but preserves in-flight tasks
belonging to the active layer": non-active entries are unlistened and their
loading counters ended, active-layer entries stay in the in-flight map. -/
def TileLoader.abandonNonActive (loader : LoaderState) (activeLayer : Option ℕ)
    (stats : StatsState) : LoaderState × StatsState :=
  let kept := loader.loading.filter (fun e => activeLayer == some e.2.layer)
  let dropped := loader.loading.filter (fun e => !(activeLayer == some e.2.layer))
  (⟨kept⟩, dropped.foldl (fun s e => s.recordLoadingEnd e.2.category) stats)

/-- Embeds `TileLoader.dispose`: detach all listeners, clear the in-flight map. -/
def TileLoader.dispose (_ : LoaderState) : LoaderState := ⟨[]⟩

/-- State of `PrefetchScheduler`: whether a coalesced tick timer is pending
(`tickTimer_ !== null`) and the `enabled` gate. -/
structure SchedulerState where
  tickTimer : Bool
  enabled : Bool
deriving DecidableEq, Repr

/-- Embeds `PrefetchScheduler.scheduleTick`: idempotent while a tick is pending,
gated by `enabled`; returns the new state and whether a NEW timer was
created. -/
def SchedulerState.scheduleTick (s : SchedulerState) : SchedulerState × Bool :=
  if s.tickTimer || !s.enabled then (s, false)
  else ({ s with tickTimer := true }, true)

/-- Embeds `PrefetchScheduler.dispose`: clears a pending timer; note that it does NOT
touch `enabled_`. -/
def SchedulerState.dispose (s : SchedulerState) : SchedulerState :=
  { s with tickTimer := false }

/-- Result of `PrefetchScheduler.runTick`: the new scheduler state, whether
the manager was asked to rebuild and to fill, and whether a follow-up tick
was scheduled. -/
structure RunTickResult where
  scheduler : SchedulerState
  rebuilt : Bool
  filled : Bool
  tickRequested : Bool
deriving DecidableEq, Repr

/-- Embeds `PrefetchScheduler.runTick`: bail when disabled or interacting; when the
host tile queue has outstanding work, notify stats and re-schedule instead of
acting; otherwise rebuild then fill. -/
def SchedulerState.runTick (s : SchedulerState) (userInteracting : Bool)
    (tilesLoading : Option ℕ) : RunTickResult :=
  if !s.enabled || userInteracting then ⟨s, false, false, false⟩
  else
    match tilesLoading with
    | some n =>
      if n > 0 then ⟨(s.scheduleTick).1, false, false, true⟩
      else ⟨s, true, true, false⟩
    | none => ⟨s, true, true, false⟩

/-- The state owned by `PrefetchManager` (timers as pending flags, listener
keys as a count). -/
structure ManagerState where
  maxConcurrentPrefetches : ℕ
  idleDelay : ℚ
  enabled : Bool
  loadActiveDuringInteraction : Bool
  userInteracting : Bool
  idleTimeout : Bool
  backgroundLayers : List BackgroundLayerEntry
  activeLayer : Option ℕ
  nextTargets : List PrefetchTarget
  excludedLayers : List ℕ
  categoryPriorities : CategoryPriorities
  queue : List PrefetchTask
  stats : StatsState
  planner : PrefetchPlanner
  loader : LoaderState
  scheduler : SchedulerState
  listenerCount : ℕ

/-- The constructor defaults of `PrefetchManager` (options all defaulted):
`maxConcurrentPrefetches 16`, `idleDelay 80`, `enabled true`,
`loadActiveDuringInteraction true`, `spatialBufferFactor 1.5`, three map
listeners attached. -/
def ManagerState.create : ManagerState :=
  { maxConcurrentPrefetches := 16
    idleDelay := 80
    enabled := true
    loadActiveDuringInteraction := true
    userInteracting := false
    idleTimeout := false
    backgroundLayers := []
    activeLayer := none
    nextTargets := []
    excludedLayers := []
    categoryPriorities := DEFAULT_CATEGORY_PRIORITIES
    queue := []
    stats := StatsState.initial
    planner := ⟨3 / 2, none⟩
    loader := ⟨[]⟩
    scheduler := ⟨false, true⟩
    listenerCount := 3 }

/-- The queue filter kept on interaction start in keep-active mode:
active-layer SpatialActive tasks plus next-navigation tasks. -/
def keepActiveFilter (activeLayer : Option ℕ) (task : PrefetchTask) : Bool :=
  (task.category == .spatial && activeLayer == some task.layer) ||
    task.category == .nextNavActive || task.category == .nextNavBackground

/-- Embeds `PrefetchManager.onMoveStart_`: enter the Interacting state, cancel the
idle timer, abandon in-flight loads (all, or only non-active-layer ones in
keep-active mode), collapse the queue, recompute queued counters from the
collapsed queue, and suspend the scheduler. -/
def ManagerState.onMoveStart (m : ManagerState) : ManagerState :=
  let m := { m with userInteracting := true, idleTimeout := false }
  let (loader', stats', queue') :=
    if m.loadActiveDuringInteraction then
      let (l, s) := TileLoader.abandonNonActive m.loader m.activeLayer m.stats
      (l, s, m.queue.filter (keepActiveFilter m.activeLayer))
    else
      let (l, s) := TileLoader.abandonAll m.loader m.stats
      (l, s,
        m.queue.filter fun task =>
          task.category == .nextNavActive || task.category == .nextNavBackground)
  let stats2 := queue'.foldl (fun s t => s.recordQueued t.category)
    stats'.resetQueuedCounts
  { m with
    loader := loader'
    queue := queue'
    stats := stats2
    scheduler := m.scheduler.dispose }

/-- Embeds `PrefetchManager.rebuildQueue_`: during interaction only the active-layer
spatial portion is rebuilt and merged with kept next-nav tasks; otherwise a
full planning pass with excluded layers removed from all planner inputs. -/
def ManagerState.rebuildQueue (m : ManagerState) (map : OLMap) : ManagerState :=
  if m.userInteracting then
    match m.activeLayer with
    | none => m
    | some a =>
      if !m.loadActiveDuringInteraction || m.excludedLayers.contains a then m
      else
        let (activeSpatial, stats') :=
          m.planner.buildActiveSpatialQueue map a m.categoryPriorities m.stats
        let nextNavTasks := m.queue.filter fun t =>
          t.category == .nextNavActive || t.category == .nextNavBackground
        { m with
          queue := List.insertionSort taskLE (activeSpatial ++ nextNavTasks)
          stats := stats' }
  else
    let effectiveActiveLayer :=
      match m.activeLayer with
      | some a => if m.excludedLayers.contains a then none else some a
      | none => none
    let effectiveBackgroundLayers :=
      m.backgroundLayers.filter fun e => !(m.excludedLayers.contains e.layer)
    let r := m.planner.buildQueue map effectiveActiveLayer
      effectiveBackgroundLayers m.nextTargets m.categoryPriorities m.stats
    { m with queue := r.queue, stats := r.stats, planner := r.planner }

/-- Result of one pass of `PrefetchManager.fillSlots_`. -/
structure FillLoopOut where
  loader : LoaderState
  stats : StatsState
  queue : List PrefetchTask
  scheduler : SchedulerState
  dispatched : List PrefetchTask
  tickRequested : Bool

/-- The `while` loop of `PrefetchManager.fillSlots_`.  Each iteration either
exits, re-schedules because the host is busy, or removes exactly one task
from the queue and dispatches it, so the initial queue length is enough
fuel. -/
def fillLoop (map : OLMap) (maxC : ℕ) (useFilter : Bool)
    (p : PrefetchTask → Bool) (busy : Bool) :
    ℕ → LoaderState → StatsState → List PrefetchTask → SchedulerState →
    FillLoopOut
  | 0, loader, stats, queue, sched => ⟨loader, stats, queue, sched, [], false⟩
  | fuel + 1, loader, stats, queue, sched =>
    if loader.activeCount < maxC ∧ queue ≠ [] then
      if busy then ⟨loader, stats, queue, (sched.scheduleTick).1, [], true⟩
      else
        let i := if useFilter then queue.findIdx p else 0
        if h : i < queue.length then
          let task := queue.get ⟨i, h⟩
          let r := TileLoader.startTask loader map stats task
          let out := fillLoop map maxC useFilter p busy fuel r.loader r.stats
            (queue.eraseIdx i) sched
          { out with dispatched := task :: out.dispatched }
        else ⟨loader, stats, queue, sched, [], false⟩
    else ⟨loader, stats, queue, sched, [], false⟩

/-- Result of `PrefetchManager.fillSlots_`: the new manager state, the tasks
dispatched to the loader in order, and whether a tick was (re-)requested. -/
structure FillResult where
  manager : ManagerState
  dispatched : List PrefetchTask
  tickRequested : Bool

/-- Whether the host map is mid-burst: its own tile queue exists and reports
outstanding loading tiles. -/
def OLMap.busy (map : OLMap) : Bool :=
  match map.tilesLoading with
  | some n => n > 0
  | none => false

/-- Embeds `PrefetchManager.fillSlots_`: gate on enabled and the interaction state,
then pop eligible tasks while concurrency budget remains, yielding to the
host tile queue, and re-schedule when work remains but nothing is
in flight. -/
def ManagerState.fillSlots (m : ManagerState) (map : OLMap) : FillResult :=
  if !m.enabled then ⟨m, [], false⟩
  else
    let useFilter := m.userInteracting && m.loadActiveDuringInteraction
    if m.userInteracting && !useFilter then ⟨m, [], false⟩
    else if m.queue.isEmpty && m.loader.activeCount == 0 then ⟨m, [], false⟩
    else
      let p := fun task : PrefetchTask =>
        task.category == .spatial && m.activeLayer == some task.layer
      let out := fillLoop map m.maxConcurrentPrefetches useFilter p map.busy
        m.queue.length m.loader m.stats m.queue m.scheduler
      let (sched2, req2) :=
        if out.queue ≠ [] ∧ out.loader.activeCount = 0 then
          out.scheduler.scheduleTick
        else (out.scheduler, false)
      ⟨{ m with
          loader := out.loader, stats := out.stats, queue := out.queue,
          scheduler := sched2 },
        out.dispatched, out.tickRequested || req2⟩

/-- Embeds `PrefetchManager.setActiveLayer`: set, rebuild, tick. -/
def ManagerState.setActiveLayer (m : ManagerState) (map : OLMap) (layer : ℕ) :
    ManagerState :=
  let m := { m with activeLayer := some layer }
  let m := m.rebuildQueue map
  { m with scheduler := (m.scheduler.scheduleTick).1 }

/-- The registry order `(a, b) => a.priority - b.priority`. -/
def entryLE (a b : BackgroundLayerEntry) : Prop := a.priority ≤ b.priority

instance : DecidableRel entryLE := fun a b =>
  inferInstanceAs (Decidable (a.priority ≤ b.priority))

/-- Result of a configuration mutation: the new manager state, whether a
re-plan happened and whether a scheduler tick was requested. -/
structure MutateResult where
  manager : ManagerState
  rebuilt : Bool
  tickRequested : Bool

/-- Embeds `PrefetchManager.addBackgroundLayer` (default priority 0): everything is
guarded by `!exists`, so re-adding a registered layer does nothing at all. -/
def ManagerState.addBackgroundLayer (m : ManagerState) (map : OLMap)
    (layer : ℕ) (priority : ℚ) : MutateResult :=
  if m.backgroundLayers.any (fun e => e.layer == layer) then ⟨m, false, false⟩
  else
    let m := { m with
      backgroundLayers :=
        List.insertionSort entryLE
          (m.backgroundLayers ++ [BackgroundLayerEntry.mk layer priority]) }
    let m := m.rebuildQueue map
    ⟨{ m with scheduler := (m.scheduler.scheduleTick).1 }, true, true⟩

/-- Embeds `PrefetchManager.setEnabled`. -/
def ManagerState.setEnabled (m : ManagerState) (map : OLMap) (enabled : Bool) :
    ManagerState :=
  let m := { m with enabled := enabled,
                    scheduler := { m.scheduler with enabled := enabled } }
  if enabled then
    let m := m.rebuildQueue map
    { m with scheduler := (m.scheduler.scheduleTick).1 }
  else m

/-- Embeds `PrefetchManager.dispose`: unlisten the map listeners, cancel the idle
timer, `scheduler_.dispose()` (which clears only the pending timer),
`loader_.dispose()`, `stats_.dispose()`, clear all collections.  No disposed
flag is set and the scheduler `enabled_` gate is left as it was. -/
def ManagerState.dispose (m : ManagerState) : ManagerState :=
  { m with
    listenerCount := 0
    idleTimeout := false
    scheduler := m.scheduler.dispose
    loader := TileLoader.dispose m.loader
    stats := m.stats.disposeStats
    queue := []
    backgroundLayers := []
    activeLayer := none
    nextTargets := []
    excludedLayers := [] }

/-! Concrete fixtures: a mock host in the style of the unit test of the
repository (`tests` mock tile grid / source / view), used by the witness and
counterexample theorems below. -/

/-- A host tile handle that is idle (never loaded or loading). -/
def mockTile : Tile := ⟨.idle⟩

/-- A mock tile grid: extents left of `x = 50` cover the single tile at the
floor of their lower-left corner, extents right of it cover no tile at all
(an empty range, as OpenLayers represents one). -/
def mockGrid : TileGrid :=
  ⟨fun e _ =>
    if 50 ≤ e.minX then ⟨0, -1, 0, -1⟩
    else ⟨⌊e.minX⌋, ⌊e.minX⌋, ⌊e.minY⌋, ⌊e.minY⌋⟩⟩

/-- A mock source over `mockGrid` whose tiles are all idle. -/
def mockSource : TileSource := ⟨mockGrid, fun _ _ _ _ => some mockTile⟩

/-- A mock map: defined view at center (100, 100) and zoom 5, every layer
backed by `mockSource`, no host tile queue, axis-aligned view extents of half
width 1. -/
def mockMap : OLMap :=
  { view := some ⟨true, (100, 100), 1, 0, some 5, fun _ => 1⟩
    size := some (256, 256)
    pixelDensity := 1
    getSource := fun _ => some mockSource
    tilesLoading := none
    forViewAndSize := fun c _ _ _ => ⟨c.1 - 1, c.2 - 1, c.1 + 1, c.2 + 1⟩ }

/-- A variant of `mockMap` whose own tile queue reports three loading tiles. -/
def mockBusyMap : OLMap := { mockMap with tilesLoading := some 3 }

/-- A source whose tiles are all in the loaded state. -/
def loadedSource : TileSource := ⟨mockGrid, fun _ _ _ _ => some ⟨.loaded⟩⟩

/-- A variant of `mockMap` with every layer backed by `loadedSource`. -/
def loadedMap : OLMap := { mockMap with getSource := fun _ => some loadedSource }

/-- A map with no resolvable viewport at all. -/
def mapNone : OLMap :=
  { view := none
    size := none
    pixelDensity := 1
    getSource := fun _ => none
    tilesLoading := none
    forViewAndSize := fun _ _ _ _ => ⟨0, 0, 0, 0⟩ }

/-- Two registered next-navigation targets (both resolve left of x = 50, so
each contributes exactly one tile per layer on `mockGrid`). -/
def tgtsC5 : List PrefetchTarget := [⟨(0, 0), 5⟩, ⟨(10, 10), 5⟩]

/-- Two background layers whose registered priorities differ by 200, so their
`* 0.001` sub-offsets differ by 0.2, more than the 0.1 target offset. -/
def bgC5 : List BackgroundLayerEntry := [⟨1, 0⟩, ⟨2, 200⟩]

/-- The queue of a full planning pass with no active layer, the two
background layers of `bgC5` and the two targets of `tgtsC5`. -/
def cexQueueC5 : List PrefetchTask :=
  (PrefetchPlanner.buildQueue ⟨3 / 2, none⟩ mockMap none bgC5 tgtsC5
    DEFAULT_CATEGORY_PRIORITIES StatsState.initial).queue

/-- The queue of a full planning pass with active layer 1, no background
layers, buffer factor 1 and the two targets of `tgtsC5`: exactly one
NextNavActive task per target. -/
def witQueueC5 : List PrefetchTask :=
  (PrefetchPlanner.buildQueue ⟨1, none⟩ mockMap (some 1) [] tgtsC5
    DEFAULT_CATEGORY_PRIORITIES StatsState.initial).queue

/-- An active-layer SpatialActive task (layer 1). -/
def taskA : PrefetchTask := ⟨"1/5/0/0", 1, .spatial, 1, (5, 0, 0)⟩

/-- A background-viewport task of layer 2. -/
def taskB : PrefetchTask := ⟨"2/5/0/0", 2, .bgViewport, 2, (5, 0, 0)⟩

/-- A next-navigation task of layer 2. -/
def taskN : PrefetchTask := ⟨"2/6/1/1", 5, .nextNavBackground, 2, (6, 1, 1)⟩

/-- A manager in the Active state with active layer 1, two in-flight loads
(one of the active layer, one of layer 2) and a mixed queue. -/
def mC1 : ManagerState :=
  { ManagerState.create with
    activeLayer := some 1
    loader := ⟨[(taskA.id, taskA), (taskB.id, taskB)]⟩
    queue := [taskA, taskB, taskN] }

/-- A manager with a nonempty sorted queue facing a busy host map. -/
def mC9 : ManagerState := { ManagerState.create with queue := [taskA, taskB] }

/-- A manager with background layer 1 already registered at priority 0. -/
def mC10 : ManagerState :=
  { ManagerState.create with backgroundLayers := [⟨1, 0⟩] }

/-- Stats with nonzero spatial counters, to exercise the queued-count
reset. -/
def statsC6 : StatsState := { StatsState.initial with spatial := ⟨2, 3, 4, 5⟩ }

/-- A dispatched background-viewport task, in flight in `loaderC7`. -/
def taskC7 : PrefetchTask := ⟨"1/4/0/0", 2, .bgViewport, 1, (4, 0, 0)⟩

/-- A loader tracking `taskC7`. -/
def loaderC7 : LoaderState := ⟨[(taskC7.id, taskC7)]⟩

/-- The error record the loader would build for `taskC7` without host
detail. -/
def errC7 : PrefetchError := TileLoader.buildErrorEntry taskC7 none none none none

/-- What the planner guarantees of every task it enqueues: the id is the
deterministic key of `(layer, z, x, y)`, and the host tile handle it resolved
exists and does not report the loaded or loading lifecycle state. -/
def goodTask (map : OLMap) (t : PrefetchTask) : Prop :=
  t.id = tileKey t.layer t.tileCoord.1 t.tileCoord.2.1 t.tileCoord.2.2 ∧
  ∃ source tile,
    map.getSource t.layer = some source ∧
    source.getTile t.tileCoord.1 t.tileCoord.2.1 t.tileCoord.2.2
      map.pixelDensity = some tile ∧
    tile.state ≠ TileState.loaded ∧ tile.state ≠ TileState.loading

/-- Invariant of the planner context during one planning pass: the pixel
density is the one of the map, task ids are pairwise distinct, every enqueued
id has been recorded in the dedup set, and every task satisfies
`goodTask`. -/
def ctxInv (map : OLMap) (ctx : PlannerCtx) : Prop :=
  ctx.pixelDensity = map.pixelDensity ∧
  (ctx.queue.map PrefetchTask.id).Nodup ∧
  (∀ t ∈ ctx.queue, t.id ∈ ctx.seenTiles) ∧
  (∀ t ∈ ctx.queue, goodTask map t)

/-- The priority shape of NextNavActive tasks: the category weight plus
`i * 0.1` for the index `i < n` of the originating target. -/
def nnaShape (prios : CategoryPriorities) (n : ℕ) (t : PrefetchTask) : Prop :=
  t.category = PrefetchCategory.nextNavActive →
    ∃ i < n, t.priority = prios.nextNavActive + (i : ℚ) * (1 / 10)

/-- The priority shape of NextNavBackground tasks: the category weight plus
`i * 0.1` for the originating target index plus `priority * 0.001` for the
originating registry entry. -/
def nnbShape (prios : CategoryPriorities) (n : ℕ)
    (bg : List BackgroundLayerEntry) (t : PrefetchTask) : Prop :=
  t.category = PrefetchCategory.nextNavBackground →
    ∃ i < n, ∃ e ∈ bg, t.layer = e.layer ∧
      t.priority = prios.nextNavBackground + (i : ℚ) * (1 / 10) +
        e.priority * (1 / 1000)

/-! Helper lemmas. -/

theorem StatsState.get_modifyCat_same (s : StatsState) (c : PrefetchCategory)
    (f : CategoryStats → CategoryStats) : (s.modifyCat c f).get c = f (s.get c) := by
  cases c <;> rfl

theorem StatsState.modifyCat_errorCount (s : StatsState) (c : PrefetchCategory)
    (f : CategoryStats → CategoryStats) :
    (s.modifyCat c f).errorCount = s.errorCount := by
  cases c <;> rfl

theorem StatsState.modifyCat_errorLog (s : StatsState) (c : PrefetchCategory)
    (f : CategoryStats → CategoryStats) :
    (s.modifyCat c f).errorLog = s.errorLog := by
  cases c <;> rfl

/-- C6: the counter reset of a planning pass (`resetQueuedCounts`), claimed to
zero only `queued`, in fact also zeroes `loading`: on stats with
`spatial.loading = 3` the reset leaves `loading = 0`, not 3.  This refutes
the claim that loading counters are left unchanged. -/
theorem C6_counterexample :
    statsC6.spatial.loading = 3 ∧
    (statsC6.resetQueuedCounts).spatial.loading = 0 ∧
    ¬ ((statsC6.resetQueuedCounts).spatial.loading = statsC6.spatial.loading) := by
  decide

/-- C6 (amended): the reset `resetQueuedCounts` sets the `queued` AND
`loading` counters of every category to zero, and leaves the `loaded` and
`errors` counters of every category unchanged. -/
theorem C6_reset_zeroes_queued_and_loading (s : StatsState) (c : PrefetchCategory) :
    ((s.resetQueuedCounts).get c).queued = 0 ∧
    ((s.resetQueuedCounts).get c).loading = 0 ∧
    ((s.resetQueuedCounts).get c).loaded = (s.get c).loaded ∧
    ((s.resetQueuedCounts).get c).errors = (s.get c).errors := by
  cases c <;> exact ⟨rfl, rfl, rfl, rfl⟩

/-- C7: an empty completion is claimed to increment "the errors count
reported in the stats ... exactly as it does for an error completion"; in
fact the top-level `errors` field of the published snapshot (backed by
`errorCount_`) stays 0 after an empty completion and becomes 1 after an error
completion, and the recent-error log also stays empty. -/
theorem C7_counterexample :
    (((TileLoader.onTileChange loaderC7 StatsState.initial taskC7 .empty
        errC7).stats.getSnapshot 0 0 false [] DEFAULT_CATEGORY_PRIORITIES).errors = 0) ∧
    (((TileLoader.onTileChange loaderC7 StatsState.initial taskC7 .error
        errC7).stats.getSnapshot 0 0 false [] DEFAULT_CATEGORY_PRIORITIES).errors = 1) ∧
    ((TileLoader.onTileChange loaderC7 StatsState.initial taskC7 .empty
        errC7).stats.errorLog = []) ∧
    ((TileLoader.onTileChange loaderC7 StatsState.initial taskC7 .error
        errC7).stats.errorLog = [errC7]) := by
  decide

/-- C7 (amended): when an in-flight tile completes in the empty state the
engine increments the same PER-CATEGORY `errors` counter as a genuine fetch
failure does (both by exactly one), but unlike an error completion it leaves
the global error count of the snapshot and the recent-error log untouched. -/
theorem C7_empty_counted_in_category_errors (loader : LoaderState)
    (stats : StatsState) (task : PrefetchTask) (errEntry : PrefetchError)
    (h : loader.loading.any (fun e => e.1 == task.id) = true) :
    (((TileLoader.onTileChange loader stats task .empty errEntry).stats.get
        task.category).errors = (stats.get task.category).errors + 1) ∧
    (((TileLoader.onTileChange loader stats task .error errEntry).stats.get
        task.category).errors = (stats.get task.category).errors + 1) ∧
    ((TileLoader.onTileChange loader stats task .empty errEntry).stats.errorCount
      = stats.errorCount) ∧
    ((TileLoader.onTileChange loader stats task .error errEntry).stats.errorCount
      = stats.errorCount + 1) ∧
    ((TileLoader.onTileChange loader stats task .empty errEntry).stats.errorLog
      = stats.errorLog) := by
  obtain ⟨tid, tpr, tcat, tlay, tco⟩ := task
  cases tcat <;>
    simp [TileLoader.onTileChange, h, StatsState.recordEmpty,
      StatsState.recordError, StatsState.recordLoadingEnd,
      StatsState.modifyCat, StatsState.get]

/-- C7 witness: the amended theorem applied to the concrete in-flight task
`taskC7`. -/
theorem C7_witness :
    (((TileLoader.onTileChange loaderC7 statsC6 taskC7 .empty errC7).stats.get
        taskC7.category).errors = (statsC6.get taskC7.category).errors + 1) ∧
    (((TileLoader.onTileChange loaderC7 statsC6 taskC7 .error errC7).stats.get
        taskC7.category).errors = (statsC6.get taskC7.category).errors + 1) ∧
    ((TileLoader.onTileChange loaderC7 statsC6 taskC7 .empty errC7).stats.errorCount
      = statsC6.errorCount) ∧
    ((TileLoader.onTileChange loaderC7 statsC6 taskC7 .error errC7).stats.errorCount
      = statsC6.errorCount + 1) ∧
    ((TileLoader.onTileChange loaderC7 statsC6 taskC7 .empty errC7).stats.errorLog
      = statsC6.errorLog) :=
  C7_empty_counted_in_category_errors loaderC7 statsC6 taskC7 errC7 (by decide)

/-- C8: when `startTask` resolves a tile handle already in the loaded state,
the loader records an already-loaded hit (bumping the category loaded
counter) and returns with the in-flight map unchanged, no listener attached
and no load triggered. -/
theorem C8_already_loaded_no_dispatch (loader : LoaderState) (map : OLMap)
    (stats : StatsState) (task : PrefetchTask) (source : TileSource) (tile : Tile)
    (hsrc : map.getSource task.layer = some source)
    (htile : source.getTile task.tileCoord.1 task.tileCoord.2.1
      task.tileCoord.2.2 map.pixelDensity = some tile)
    (hst : tile.state = .loaded) :
    TileLoader.startTask loader map stats task =
      ⟨loader, stats.recordAlreadyLoaded task.category, false, false⟩ ∧
    ((stats.recordAlreadyLoaded task.category).get task.category).loaded =
      (stats.get task.category).loaded + 1 := by
  obtain ⟨tid, tpr, tcat, tlay, tco⟩ := task
  refine ⟨?_, ?_⟩
  · simp [TileLoader.startTask, hsrc, htile, hst]
  · cases tcat <;>
      simp [StatsState.recordAlreadyLoaded, StatsState.modifyCat, StatsState.get]

/-- C8 witness: `startTask` on `taskA` against a host whose tiles are all
loaded. -/
theorem C8_witness :
    TileLoader.startTask ⟨[]⟩ loadedMap StatsState.initial taskA =
      ⟨⟨[]⟩, StatsState.initial.recordAlreadyLoaded taskA.category, false, false⟩ ∧
    ((StatsState.initial.recordAlreadyLoaded taskA.category).get taskA.category).loaded =
      (StatsState.initial.get taskA.category).loaded + 1 :=
  C8_already_loaded_no_dispatch ⟨[]⟩ loadedMap StatsState.initial taskA
    loadedSource ⟨.loaded⟩ rfl rfl rfl

/-- C10: calling `addBackgroundLayer` with an already-registered layer is a
complete no-op for any priority argument: the state is unchanged, no re-plan
happens and no scheduler tick is requested. -/
theorem C10_add_existing_layer_noop (m : ManagerState) (map : OLMap)
    (layer : ℕ) (priority : ℚ) (h : ∃ e ∈ m.backgroundLayers, e.layer = layer) :
    m.addBackgroundLayer map layer priority = ⟨m, false, false⟩ := by
  unfold ManagerState.addBackgroundLayer
  have hx : m.backgroundLayers.any (fun e => e.layer == layer) = true := by
    rcases h with ⟨e, he, hl⟩
    exact List.any_eq_true.mpr ⟨e, he, by simp [hl]⟩
  simp [hx]

/-- C10 witness: re-adding the registered layer 1 with a different priority
changes nothing. -/
theorem C10_witness :
    mC10.addBackgroundLayer mockMap 1 5 =
      ⟨mC10, false, false⟩ :=
  C10_add_existing_layer_noop mC10 mockMap 1 5 ⟨⟨1, 0⟩, List.Mem.head _, rfl⟩

/-- C2: evaluation of the failing input of the claim.  After `dispose()` the
pending tick timer is cleared, but `scheduler.enabled` is left true (dispose
never disables the scheduler), so the very next public call
(`setActiveLayer`) creates a NEW scheduler tick timer, contradicting the
claim that no new tick timer is ever created after `dispose()`. -/
theorem C2_dispose_not_terminal :
    (ManagerState.create.dispose).scheduler.tickTimer = false ∧
    (ManagerState.create.dispose).scheduler.enabled = true ∧
    (ManagerState.create.dispose).listenerCount = 0 ∧
    ((ManagerState.create.dispose).setActiveLayer mapNone 7).scheduler.tickTimer
      = true :=
  ⟨rfl, rfl, rfl, rfl⟩

/-- C1: on a viewport move start in keep-active mode the transition keeps
exactly the active-layer entries of the in-flight map (abandoning only
non-active-layer loads), collapses the queue to active-layer SpatialActive
tasks plus next-navigation tasks, enters the Interacting state and suspends
the scheduler.  The embedding is a total function, so the transition cannot
throw; note the `abandonNonActive` step is modelled from the spec because
the provided `TileLoader.ts` lacks it. -/
theorem C1_movestart_keep_active (m : ManagerState) (_henabled : m.enabled = true)
    (h2 : m.loadActiveDuringInteraction = true) :
    (m.onMoveStart).loader.loading =
      m.loader.loading.filter (fun e => m.activeLayer == some e.2.layer) ∧
    (m.onMoveStart).queue = m.queue.filter (keepActiveFilter m.activeLayer) ∧
    (m.onMoveStart).userInteracting = true ∧
    (m.onMoveStart).scheduler.tickTimer = false := by
  unfold ManagerState.onMoveStart TileLoader.abandonNonActive
    SchedulerState.dispose
  simp [h2]

/-- C1 witness: the move-start transition on the concrete manager `mC1`
(active layer 1, one active-layer and one background in-flight load). -/
theorem C1_witness :
    (mC1.onMoveStart).loader.loading =
      mC1.loader.loading.filter (fun e => mC1.activeLayer == some e.2.layer) ∧
    (mC1.onMoveStart).queue = mC1.queue.filter (keepActiveFilter mC1.activeLayer) ∧
    (mC1.onMoveStart).userInteracting = true ∧
    (mC1.onMoveStart).scheduler.tickTimer = false :=
  C1_movestart_keep_active mC1 rfl rfl

/-- One unfolding step of the fill loop: a busy host exits the loop before
any dispatch, requesting a tick when the loop was entered at all. -/
theorem fillLoop_busy (map : OLMap) (maxC : ℕ) (useFilter : Bool)
    (p : PrefetchTask → Bool) (fuel : ℕ) (loader : LoaderState)
    (stats : StatsState) (queue : List PrefetchTask) (sched : SchedulerState) :
    (fillLoop map maxC useFilter p true fuel loader stats queue sched).dispatched
      = [] ∧
    (0 < fuel → loader.activeCount < maxC → queue ≠ [] →
      (fillLoop map maxC useFilter p true fuel loader stats queue
        sched).tickRequested = true) := by
  cases fuel with
  | zero => exact ⟨rfl, fun h => absurd h (lt_irrefl 0)⟩
  | succ n =>
    constructor
    · rw [fillLoop]
      split
      · simp
      · rfl
    · intro _ hc hq
      rw [fillLoop, if_pos ⟨hc, hq⟩]
      simp

/-- C9: while the host map reports a positive number of loading tiles, a
fill-slots pass dispatches nothing to the loader, and (whenever it had both
budget and pending work, in the non-interacting enabled state) it re-schedules
a tick instead; likewise a scheduler tick facing a busy host re-schedules
itself without rebuilding or filling. -/
theorem C9_busy_host_yields (m : ManagerState) (map : OLMap) (n : ℕ)
    (hq : map.tilesLoading = some n) (hn : 0 < n) :
    (m.fillSlots map).dispatched = [] ∧
    (m.enabled = true → m.userInteracting = false → m.queue ≠ [] →
      m.loader.activeCount < m.maxConcurrentPrefetches →
      (m.fillSlots map).tickRequested = true) ∧
    (m.userInteracting = false → m.scheduler.enabled = true →
      (m.scheduler.runTick m.userInteracting map.tilesLoading).rebuilt = false ∧
      (m.scheduler.runTick m.userInteracting map.tilesLoading).filled = false ∧
      (m.scheduler.runTick m.userInteracting map.tilesLoading).tickRequested
        = true) := by
  have hbusy : map.busy = true := by
    simp [OLMap.busy, hq, hn]
  refine ⟨?_, ?_, ?_⟩
  · simp only [ManagerState.fillSlots]
    split
    · rfl
    · split
      · rfl
      · split
        · rfl
        · simp only [hbusy]
          exact (fillLoop_busy map m.maxConcurrentPrefetches _ _ m.queue.length
            m.loader m.stats m.queue m.scheduler).1
  · intro he hi hqne hc
    have h1 : (!m.enabled) = false := by simp [he]
    have h2 : (m.userInteracting && !(m.userInteracting &&
        m.loadActiveDuringInteraction)) = false := by simp [hi]
    have h3 : (m.queue.isEmpty && m.loader.activeCount == 0) = false := by
      simp [List.isEmpty_iff, hqne]
    have h4 := (fillLoop_busy map m.maxConcurrentPrefetches
      (m.userInteracting && m.loadActiveDuringInteraction)
      (fun task => task.category == .spatial && m.activeLayer == some task.layer)
      m.queue.length m.loader m.stats m.queue m.scheduler).2
      (List.length_pos.mpr hqne) hc hqne
    simp only [ManagerState.fillSlots, h1, h2, h3, hbusy, Bool.false_eq_true,
      if_false]
    simp [h4]
  · intro hi hse
    unfold SchedulerState.runTick
    simp [hi, hse, hq, hn, SchedulerState.scheduleTick]

/-- A full planning pass returns a queue sorted ascending by priority. -/
theorem buildQueue_queue_sorted (planner : PrefetchPlanner) (map : OLMap)
    (act : Option ℕ) (bg : List BackgroundLayerEntry)
    (tgts : List PrefetchTarget) (prios : CategoryPriorities)
    (stats : StatsState) :
    List.Sorted taskLE
      (PrefetchPlanner.buildQueue planner map act bg tgts prios stats).queue := by
  simp only [PrefetchPlanner.buildQueue]
  rcases hv : map.view with _ | view <;> simp only [hv]
  · exact List.sorted_nil
  · cases hd : view.isDef <;> simp only [hd, Bool.not_false, Bool.not_true,
      Bool.false_eq_true, if_true, if_false]
    · exact List.sorted_nil
    · rcases hs : map.size with _ | mapSize <;> simp only [hs]
      · exact List.sorted_nil
      · rcases hz : view.zoom with _ | zoom <;> simp only [hz]
        · exact List.sorted_nil
        · exact List.sorted_insertionSort taskLE _

/-- The interaction-time planning pass also returns a sorted queue. -/
theorem buildActiveSpatialQueue_sorted (planner : PrefetchPlanner)
    (map : OLMap) (a : ℕ) (prios : CategoryPriorities) (stats : StatsState) :
    List.Sorted taskLE
      (PrefetchPlanner.buildActiveSpatialQueue planner map a prios stats).1 := by
  simp only [PrefetchPlanner.buildActiveSpatialQueue]
  rcases hv : map.view with _ | view <;> simp only [hv]
  · exact List.sorted_nil
  · cases hd : view.isDef <;> simp only [hd, Bool.not_false, Bool.not_true,
      Bool.false_eq_true, if_true, if_false]
    · exact List.sorted_nil
    · rcases hs : map.size with _ | mapSize <;> simp only [hs]
      · exact List.sorted_nil
      · rcases hz : view.zoom with _ | zoom <;> simp only [hz]
        · exact List.sorted_nil
        · exact List.sorted_insertionSort taskLE _

/-- The part of a list before the first match of `p` contains no match. -/
theorem filter_take_findIdx (p : α → Bool) :
    ∀ l : List α, (l.take (l.findIdx p)).filter p = [] := by
  intro l
  induction l with
  | nil => rfl
  | cons a l ih =>
    rw [List.findIdx_cons]
    cases hpa : p a
    · simp [hpa, ih]
    · simp [hpa]

/-- Erasing the first match leaves the matches of the tail. -/
theorem filter_eraseIdx_findIdx (p : α → Bool) (l : List α) :
    (l.eraseIdx (l.findIdx p)).filter p = (l.drop (l.findIdx p + 1)).filter p := by
  rw [List.eraseIdx_eq_take_drop_succ, List.filter_append, filter_take_findIdx,
    List.nil_append]

/-- The matches of `l` are the first match followed by the matches after
it. -/
theorem filter_eq_get_cons (p : α → Bool) (l : List α)
    (h : l.findIdx p < l.length) :
    l.filter p = l.get ⟨l.findIdx p, h⟩ :: (l.drop (l.findIdx p + 1)).filter p := by
  conv_lhs => rw [← List.take_append_drop (l.findIdx p) l]
  rw [List.filter_append, filter_take_findIdx, List.nil_append,
    List.drop_eq_getElem_cons h, List.filter_cons]
  have hp := List.findIdx_getElem (w := h)
  simp [List.get_eq_getElem, hp]

/-- With the interaction filter active, the tasks dispatched by one fill
pass form a sublist of the matching tasks of the queue, in queue order. -/
theorem fillLoop_dispatched_filter_sublist (map : OLMap) (maxC : ℕ)
    (p : PrefetchTask → Bool) (busy : Bool) :
    ∀ (fuel : ℕ) (loader : LoaderState) (stats : StatsState)
      (queue : List PrefetchTask) (sched : SchedulerState),
      List.Sublist
        (fillLoop map maxC true p busy fuel loader stats queue sched).dispatched
        (queue.filter p) := by
  intro fuel
  induction fuel with
  | zero => intro _ _ _ _; exact List.nil_sublist _
  | succ n ih =>
    intro loader stats queue sched
    rw [fillLoop]
    split
    · split
      · exact List.nil_sublist _
      · simp only [if_true]
        split
        case isTrue h =>
          rw [filter_eq_get_cons p queue h]
          have h2 := ih (TileLoader.startTask loader map stats
              (queue.get ⟨queue.findIdx p, h⟩)).loader
            (TileLoader.startTask loader map stats
              (queue.get ⟨queue.findIdx p, h⟩)).stats
            (queue.eraseIdx (queue.findIdx p)) sched
          rw [filter_eraseIdx_findIdx] at h2
          exact h2.cons₂ _
        case isFalse => exact List.nil_sublist _
    · exact List.nil_sublist _

/-- Without the interaction filter, dispatch pops the queue head, so the
dispatched tasks form an initial-segment sublist of the queue. -/
theorem fillLoop_dispatched_sublist_nofilter (map : OLMap) (maxC : ℕ)
    (p : PrefetchTask → Bool) (busy : Bool) :
    ∀ (fuel : ℕ) (loader : LoaderState) (stats : StatsState)
      (queue : List PrefetchTask) (sched : SchedulerState),
      List.Sublist
        (fillLoop map maxC false p busy fuel loader stats queue sched).dispatched
        queue := by
  intro fuel
  induction fuel with
  | zero => intro _ _ _ _; exact List.nil_sublist _
  | succ n ih =>
    intro loader stats queue sched
    rw [fillLoop]
    split
    · split
      · exact List.nil_sublist _
      · simp only [if_false, Bool.false_eq_true]
        split
        case isTrue h =>
          rcases queue with _ | ⟨a, l⟩
          · exact absurd h (by simp)
          · exact (ih _ _ l sched).cons₂ _
        case isFalse => exact List.nil_sublist _
    · exact List.nil_sublist _

/-- The queue left behind by one fill pass is a sublist of the entering
queue. -/
theorem fillLoop_queue_sublist (map : OLMap) (maxC : ℕ) (useFilter : Bool)
    (p : PrefetchTask → Bool) (busy : Bool) :
    ∀ (fuel : ℕ) (loader : LoaderState) (stats : StatsState)
      (queue : List PrefetchTask) (sched : SchedulerState),
      List.Sublist
        (fillLoop map maxC useFilter p busy fuel loader stats queue sched).queue
        queue := by
  intro fuel
  induction fuel with
  | zero => intro _ _ _ _; exact List.Sublist.refl _
  | succ n ih =>
    intro loader stats queue sched
    rw [fillLoop]
    split
    · split
      · exact List.Sublist.refl _
      · cases huf : useFilter
        · rw [huf] at ih
          simp only [Bool.false_eq_true, if_false]
          split
          · exact (ih _ _ _ sched).trans (List.eraseIdx_sublist _ _)
          · exact List.Sublist.refl _
        · rw [huf] at ih
          simp only [if_true]
          split
          · exact (ih _ _ _ sched).trans (List.eraseIdx_sublist _ _)
          · exact List.Sublist.refl _
    · exact List.Sublist.refl _

/-- One `fillSlots_` pass dispatches a sublist of the queue and leaves a
sublist of the queue behind. -/
theorem fillSlots_sublists (m : ManagerState) (map : OLMap) :
    List.Sublist (m.fillSlots map).dispatched m.queue ∧
    List.Sublist (m.fillSlots map).manager.queue m.queue := by
  simp only [ManagerState.fillSlots]
  split
  · exact ⟨List.nil_sublist _, List.Sublist.refl _⟩
  · split
    · exact ⟨List.nil_sublist _, List.Sublist.refl _⟩
    · split
      · exact ⟨List.nil_sublist _, List.Sublist.refl _⟩
      · cases huf : (m.userInteracting && m.loadActiveDuringInteraction) <;>
          simp only [huf]
        · exact ⟨fillLoop_dispatched_sublist_nofilter map _ _ _ _ _ _ _ _,
            fillLoop_queue_sublist map _ _ _ _ _ _ _ _ _⟩
        · exact ⟨(fillLoop_dispatched_filter_sublist map _ _ _ _ _ _ _ _).trans
            (List.filter_sublist _),
            fillLoop_queue_sublist map _ _ _ _ _ _ _ _ _⟩

/-- C3: every queue returned by a planning pass (full or active-spatial) is
non-decreasing in `priority` in dispatch order, and a fill-slots pass
preserves that order: the dispatched tasks and the remaining queue of a pass
over a sorted queue are sorted as well. -/
theorem C3_priority_order (planner : PrefetchPlanner) (map : OLMap)
    (act : Option ℕ) (bg : List BackgroundLayerEntry)
    (tgts : List PrefetchTarget) (prios : CategoryPriorities)
    (stats : StatsState) (a : ℕ) (m : ManagerState) (map2 : OLMap)
    (hq : List.Sorted taskLE m.queue) :
    List.Sorted taskLE
      (PrefetchPlanner.buildQueue planner map act bg tgts prios stats).queue ∧
    List.Sorted taskLE
      (PrefetchPlanner.buildActiveSpatialQueue planner map a prios stats).1 ∧
    List.Sorted taskLE (m.fillSlots map2).dispatched ∧
    List.Sorted taskLE (m.fillSlots map2).manager.queue :=
  ⟨buildQueue_queue_sorted planner map act bg tgts prios stats,
   buildActiveSpatialQueue_sorted planner map a prios stats,
   hq.sublist (fillSlots_sublists m map2).1,
   hq.sublist (fillSlots_sublists m map2).2⟩

/-- C3 witness: the order theorem applied to a concrete planning pass and a
concrete fill pass over the sorted queue of `mC9`. -/
theorem C3_witness :
    List.Sorted taskLE
      (PrefetchPlanner.buildQueue ⟨1, none⟩ mockMap (some 1) [] tgtsC5
        DEFAULT_CATEGORY_PRIORITIES StatsState.initial).queue ∧
    List.Sorted taskLE
      (PrefetchPlanner.buildActiveSpatialQueue ⟨1, none⟩ mockMap 1
        DEFAULT_CATEGORY_PRIORITIES StatsState.initial).1 ∧
    List.Sorted taskLE (mC9.fillSlots mockMap).dispatched ∧
    List.Sorted taskLE (mC9.fillSlots mockMap).manager.queue :=
  C3_priority_order ⟨1, none⟩ mockMap (some 1) [] tgtsC5
    DEFAULT_CATEGORY_PRIORITIES StatsState.initial 1 mC9 mockMap
    (by with_unfolding_all decide)

/-- C9 witness: the yield theorem applied to the concrete manager `mC9`
facing the busy host `mockBusyMap`. -/
theorem C9_witness :
    (mC9.fillSlots mockBusyMap).dispatched = [] ∧
    (mC9.fillSlots mockBusyMap).tickRequested = true ∧
    (mC9.scheduler.runTick mC9.userInteracting
      mockBusyMap.tilesLoading).tickRequested = true :=
  ⟨(C9_busy_host_yields mC9 mockBusyMap 3 rfl (by decide)).1,
   (C9_busy_host_yields mC9 mockBusyMap 3 rfl (by decide)).2.1 rfl rfl
     (by decide) (by decide),
   ((C9_busy_host_yields mC9 mockBusyMap 3 rfl (by decide)).2.2 rfl rfl).2.2⟩

/-- The step `enqueueTile_` preserves the planner-context invariant. -/
theorem enqueueTile_inv (map : OLMap) (ctx : PlannerCtx) (layer : ℕ)
    (source : TileSource) (z x y : ℤ) (pr : ℚ) (cat : PrefetchCategory)
    (hsrc : map.getSource layer = some source) (h : ctxInv map ctx) :
    ctxInv map (enqueueTile ctx layer source z x y pr cat) := by
  obtain ⟨hpx, hnd, hseen, hgood⟩ := h
  unfold enqueueTile
  by_cases hk : tileKey layer z x y ∈ ctx.seenTiles
  · rw [if_pos hk]
    exact ⟨hpx, hnd, hseen, hgood⟩
  · rw [if_neg hk]
    rcases hg : source.getTile z x y ctx.pixelDensity with _ | tile
    · simp only [hg]
      exact ⟨hpx, hnd, fun t ht => List.mem_cons_of_mem _ (hseen t ht), hgood⟩
    · simp only [hg]
      by_cases hst : tile.state = TileState.loaded ∨ tile.state = TileState.loading
      · rw [if_pos hst]
        exact ⟨hpx, hnd, fun t ht => List.mem_cons_of_mem _ (hseen t ht), hgood⟩
      · rw [if_neg hst]
        push_neg at hst
        refine ⟨hpx, ?_, ?_, ?_⟩
        · rw [List.map_append]
          rw [List.nodup_append]
          refine ⟨hnd, List.nodup_singleton _, ?_⟩
          intro a ha hb
          simp only [List.map_cons, List.map_nil, List.mem_singleton] at hb
          subst hb
          rcases List.mem_map.mp ha with ⟨t, ht, hid⟩
          exact hk (hid ▸ hseen t ht)
        · intro t ht
          rcases List.mem_append.mp ht with h1 | h1
          · exact List.mem_cons_of_mem _ (hseen t h1)
          · simp only [List.mem_singleton] at h1
            subst h1
            exact List.mem_cons_self _ _
        · intro t ht
          rcases List.mem_append.mp ht with h1 | h1
          · exact hgood t h1
          · simp only [List.mem_singleton] at h1
            subst h1
            refine ⟨rfl, source, tile, hsrc, ?_, hst.1, hst.2⟩
            rw [← hpx]
            exact hg

/-- A fold preserves any invariant its step preserves. -/
theorem foldl_preserve {σ α : Type _} (Inv : σ → Prop) (f : σ → α → σ) :
    ∀ (l : List α) (s : σ), (∀ s a, a ∈ l → Inv s → Inv (f s a)) → Inv s →
      Inv (l.foldl f s) := by
  intro l
  induction l with
  | nil => intro s _ h; exact h
  | cons a l ih =>
    intro s hstep h
    exact ih (f s a) (fun s b hb => hstep s b (List.mem_cons_of_mem a hb))
      (hstep s a (List.mem_cons_self a l) h)

/-- The step `enqueueViewportTiles_` preserves the planner-context invariant. -/
theorem enqueueViewportTiles_inv (map : OLMap) (ctx : PlannerCtx) (layer : ℕ)
    (extent : Extent) (z : ℤ) (pr : ℚ) (cat : PrefetchCategory)
    (h : ctxInv map ctx) :
    ctxInv map (enqueueViewportTiles ctx layer map.getSource extent z pr cat) := by
  unfold enqueueViewportTiles
  rcases hs : map.getSource layer with _ | source
  · simp only [hs]
    exact h
  · simp only [hs]
    refine foldl_preserve (ctxInv map) _ _ _ (fun c x _ hc => ?_) h
    refine foldl_preserve (ctxInv map) _ _ _ (fun c2 y _ hc2 => ?_) hc
    exact enqueueTile_inv map c2 layer source z x y pr cat hs hc2

/-- The step `enqueueSpatialBuffer_` preserves the planner-context invariant. -/
theorem enqueueSpatialBuffer_inv (planner : PrefetchPlanner) (map : OLMap)
    (ctx : PlannerCtx) (layer : ℕ) (viewExtent : Extent) (z : ℤ) (pr : ℚ)
    (cat : PrefetchCategory) (h : ctxInv map ctx) :
    ctxInv map
      (planner.enqueueSpatialBuffer ctx layer map.getSource viewExtent z pr cat) := by
  unfold PrefetchPlanner.enqueueSpatialBuffer
  rcases hs : map.getSource layer with _ | source
  · simp only [hs]
    exact h
  · simp only [hs]
    refine foldl_preserve (ctxInv map) _ _ _ (fun c x _ hc => ?_) h
    refine foldl_preserve (ctxInv map) _ _ _ (fun c2 y _ hc2 => ?_) hc
    split
    · exact hc2
    · exact enqueueTile_inv map c2 layer source z x y pr cat hs hc2

/-- One target step of `buildQueue` preserves the planner-context
invariant. -/
theorem targetStep_inv (planner : PrefetchPlanner) (map : OLMap)
    (view : OLView) (act : Option ℕ) (bg : List BackgroundLayerEntry)
    (prios : CategoryPriorities) (mapSize : ℕ × ℕ) (i : ℕ)
    (tgt : PrefetchTarget) (ctx : PlannerCtx) (h : ctxInv map ctx) :
    ctxInv map (targetStep planner map view act bg prios mapSize i tgt ctx) := by
  unfold targetStep
  refine foldl_preserve (ctxInv map) _ _ _ (fun c e _ hc => ?_) ?_
  · split
    · exact hc
    · exact enqueueViewportTiles_inv map c e.layer _ _ _ _ hc
  · rcases act with _ | a
    · exact h
    · exact enqueueSpatialBuffer_inv planner map _ a _ _ _ _
        (enqueueViewportTiles_inv map ctx a _ _ _ _ h)

/-- The target loop of `buildQueue` preserves the planner-context
invariant. -/
theorem targetsLoop_inv (planner : PrefetchPlanner) (map : OLMap)
    (view : OLView) (act : Option ℕ) (bg : List BackgroundLayerEntry)
    (prios : CategoryPriorities) (mapSize : ℕ × ℕ) :
    ∀ (tgts : List PrefetchTarget) (i : ℕ) (ctx : PlannerCtx),
      ctxInv map ctx →
      ctxInv map (targetsLoop planner map view act bg prios mapSize i tgts ctx) := by
  intro tgts
  induction tgts with
  | nil => intro i ctx h; exact h
  | cons t rest ih =>
    intro i ctx h
    exact ih (i + 1) _ (targetStep_inv planner map view act bg prios mapSize i t ctx h)

/-- Sorting transfers the context invariant to the final queue. -/
theorem sortInv (map : OLMap) (ctx : PlannerCtx) (h : ctxInv map ctx) :
    ((List.insertionSort taskLE ctx.queue).map PrefetchTask.id).Nodup ∧
    ∀ t ∈ List.insertionSort taskLE ctx.queue, goodTask map t := by
  have hperm := List.perm_insertionSort taskLE ctx.queue
  constructor
  · exact ((hperm.map PrefetchTask.id).symm).nodup h.2.1
  · intro t ht
    exact h.2.2.2 t (hperm.subset ht)

/-- C4: within one full planning pass no two produced tasks share an id, the
id of every produced task is the deterministic key of its layer identity and
tile coordinate, and no produced task resolves to a host tile handle in the
loaded or loading lifecycle state. -/
theorem C4_unique_ids_no_loaded_enqueued (planner : PrefetchPlanner)
    (map : OLMap) (act : Option ℕ) (bg : List BackgroundLayerEntry)
    (tgts : List PrefetchTarget) (prios : CategoryPriorities)
    (stats : StatsState) :
    (((PrefetchPlanner.buildQueue planner map act bg tgts prios stats).queue.map
        PrefetchTask.id).Nodup) ∧
    (∀ t ∈ (PrefetchPlanner.buildQueue planner map act bg tgts prios stats).queue,
      goodTask map t) := by
  simp only [PrefetchPlanner.buildQueue]
  rcases hv : map.view with _ | view <;> simp only [hv]
  · constructor
    · simp
    · intro t ht
      simp at ht
  · cases hd : view.isDef <;> simp only [hd, Bool.not_false, Bool.not_true,
      Bool.false_eq_true, if_true, if_false]
    · constructor
      · simp
      · intro t ht
        simp at ht
    · rcases hs : map.size with _ | mapSize <;> simp only [hs]
      · constructor
        · simp
        · intro t ht
          simp at ht
      · rcases hz : view.zoom with _ | zoom <;> simp only [hz]
        · constructor
          · simp
          · intro t ht
            simp at ht
        · rcases act with _ | a
          · exact sortInv map _
              (targetsLoop_inv planner map view none bg prios mapSize tgts 0 _
                (foldl_preserve (ctxInv map) _ bg _
                  (fun c e _ hc => by
                    split
                    · exact hc
                    · exact enqueueViewportTiles_inv map c e.layer _ _ _ _ hc)
                  ⟨rfl, List.nodup_nil, by simp, by simp⟩))
          · exact sortInv map _
              (targetsLoop_inv planner map view (some a) bg prios mapSize tgts 0 _
                (foldl_preserve (ctxInv map) _ bg _
                  (fun c e _ hc => by
                    split
                    · exact hc
                    · exact enqueueViewportTiles_inv map c e.layer _ _ _ _ hc)
                  (enqueueSpatialBuffer_inv planner map _ a _ _ _ _
                    ⟨rfl, List.nodup_nil, by simp, by simp⟩)))

/-- C4 witness helper: the concrete queue `witQueueC5` is nonempty. -/
theorem witQueueC5_len_pos : 0 < witQueueC5.length := by
  with_unfolding_all decide

/-- C4 witness: the uniqueness-and-lifecycle theorem applied to the concrete
planning pass behind `witQueueC5`, instantiated at its first task. -/
theorem C4_witness :
    (witQueueC5.map PrefetchTask.id).Nodup ∧
    goodTask mockMap (witQueueC5.get ⟨0, witQueueC5_len_pos⟩) :=
  ⟨(C4_unique_ids_no_loaded_enqueued ⟨1, none⟩ mockMap (some 1) [] tgtsC5
      DEFAULT_CATEGORY_PRIORITIES StatsState.initial).1,
   (C4_unique_ids_no_loaded_enqueued ⟨1, none⟩ mockMap (some 1) [] tgtsC5
      DEFAULT_CATEGORY_PRIORITIES StatsState.initial).2 _
    (List.get_mem witQueueC5 0 witQueueC5_len_pos)⟩

/-- Any task present after `enqueueTile_` was already present or carries
exactly the priority, category and layer arguments of the call. -/
theorem enqueueTile_mem (ctx : PlannerCtx) (layer : ℕ) (source : TileSource)
    (z x y : ℤ) (pr : ℚ) (cat : PrefetchCategory) (t : PrefetchTask)
    (ht : t ∈ (enqueueTile ctx layer source z x y pr cat).queue) :
    t ∈ ctx.queue ∨ (t.priority = pr ∧ t.category = cat ∧ t.layer = layer) := by
  unfold enqueueTile at ht
  by_cases hk : tileKey layer z x y ∈ ctx.seenTiles
  · rw [if_pos hk] at ht
    exact Or.inl ht
  · rw [if_neg hk] at ht
    rcases hg : source.getTile z x y ctx.pixelDensity with _ | tile <;>
      simp only [hg] at ht
    · exact Or.inl ht
    · by_cases hst : tile.state = TileState.loaded ∨ tile.state = TileState.loading
      · rw [if_pos hst] at ht
        exact Or.inl ht
      · rw [if_neg hst] at ht
        rcases List.mem_append.mp ht with h1 | h1
        · exact Or.inl h1
        · simp only [List.mem_singleton] at h1
          subst h1
          exact Or.inr ⟨rfl, rfl, rfl⟩

/-- Fold version of a one-step membership property. -/
theorem foldl_mem {σ α : Type _} (Q : PrefetchTask → Prop)
    (getQ : σ → List PrefetchTask) (f : σ → α → σ) :
    ∀ (l : List α) (s : σ),
      (∀ s a, a ∈ l → ∀ t, t ∈ getQ (f s a) → t ∈ getQ s ∨ Q t) →
      ∀ t, t ∈ getQ (l.foldl f s) → t ∈ getQ s ∨ Q t := by
  intro l
  induction l with
  | nil => intro s _ t ht; exact Or.inl ht
  | cons a l ih =>
    intro s hstep t ht
    rcases ih (f s a)
        (fun s b hb => hstep s b (List.mem_cons_of_mem a hb)) t ht with h1 | h1
    · exact hstep s a (List.mem_cons_self a l) t h1
    · exact Or.inr h1

/-- Any task present after `enqueueViewportTiles_` was already present or
carries the priority, category and layer of the call. -/
theorem enqueueViewportTiles_mem (ctx : PlannerCtx) (layer : ℕ)
    (getSource : ℕ → Option TileSource) (extent : Extent) (z : ℤ) (pr : ℚ)
    (cat : PrefetchCategory) (t : PrefetchTask)
    (ht : t ∈ (enqueueViewportTiles ctx layer getSource extent z pr cat).queue) :
    t ∈ ctx.queue ∨ (t.priority = pr ∧ t.category = cat ∧ t.layer = layer) := by
  unfold enqueueViewportTiles at ht
  rcases hs : getSource layer with _ | source <;> simp only [hs] at ht
  · exact Or.inl ht
  · refine foldl_mem
      (fun u => u.priority = pr ∧ u.category = cat ∧ u.layer = layer)
      PlannerCtx.queue _ _ _ (fun c x _ u hu => ?_) t ht
    refine foldl_mem
      (fun u => u.priority = pr ∧ u.category = cat ∧ u.layer = layer)
      PlannerCtx.queue _ _ _ (fun c2 y _ v hv => ?_) u hu
    exact enqueueTile_mem c2 layer source z x y pr cat v hv

/-- Any task present after `enqueueSpatialBuffer_` was already present or
carries the priority, category and layer of the call. -/
theorem enqueueSpatialBuffer_mem (planner : PrefetchPlanner) (ctx : PlannerCtx)
    (layer : ℕ) (getSource : ℕ → Option TileSource) (viewExtent : Extent)
    (z : ℤ) (pr : ℚ) (cat : PrefetchCategory) (t : PrefetchTask)
    (ht : t ∈ (planner.enqueueSpatialBuffer ctx layer getSource viewExtent z
      pr cat).queue) :
    t ∈ ctx.queue ∨ (t.priority = pr ∧ t.category = cat ∧ t.layer = layer) := by
  unfold PrefetchPlanner.enqueueSpatialBuffer at ht
  rcases hs : getSource layer with _ | source <;> simp only [hs] at ht
  · exact Or.inl ht
  · refine foldl_mem
      (fun u => u.priority = pr ∧ u.category = cat ∧ u.layer = layer)
      PlannerCtx.queue _ _ _ (fun c x _ u hu => ?_) t ht
    refine foldl_mem
      (fun u => u.priority = pr ∧ u.category = cat ∧ u.layer = layer)
      PlannerCtx.queue _ _ _ (fun c2 y _ v hv => ?_) u hu
    split at hv
    · exact Or.inl hv
    · exact enqueueTile_mem c2 layer source z x y pr cat v hv

/-- Any task present after one target step was already present, or is a
NextNavActive task with priority `nextNavActive + i * 0.1`, or is a
NextNavBackground task of a registered layer with priority
`nextNavBackground + i * 0.1 + layerPriority * 0.001`. -/
theorem targetStep_mem (planner : PrefetchPlanner) (map : OLMap)
    (view : OLView) (act : Option ℕ) (bg : List BackgroundLayerEntry)
    (prios : CategoryPriorities) (mapSize : ℕ × ℕ) (i : ℕ)
    (tgt : PrefetchTarget) (ctx : PlannerCtx) (t : PrefetchTask)
    (ht : t ∈ (targetStep planner map view act bg prios mapSize i tgt ctx).queue) :
    t ∈ ctx.queue ∨
    (t.category = PrefetchCategory.nextNavActive ∧
      t.priority = prios.nextNavActive + (i : ℚ) * (1 / 10)) ∨
    (∃ e ∈ bg, t.category = PrefetchCategory.nextNavBackground ∧
      t.layer = e.layer ∧
      t.priority = prios.nextNavBackground + (i : ℚ) * (1 / 10) +
        e.priority * (1 / 1000)) := by
  unfold targetStep at ht
  rcases foldl_mem
      (fun u => ∃ e ∈ bg, u.category = PrefetchCategory.nextNavBackground ∧
        u.layer = e.layer ∧
        u.priority = prios.nextNavBackground + (i : ℚ) * (1 / 10) +
          e.priority * (1 / 1000))
      PlannerCtx.queue _ bg _
      (fun c e he u hu => by
        split at hu
        · exact Or.inl hu
        · rcases enqueueViewportTiles_mem c e.layer _ _ _ _ _ u hu with h | h
          · exact Or.inl h
          · exact Or.inr ⟨e, he, h.2.1, h.2.2, h.1⟩)
      t ht with h1 | h1
  · rcases act with _ | a
    · exact Or.inl h1
    · rcases enqueueSpatialBuffer_mem planner _ a _ _ _ _ _ t h1 with h2 | h2
      · rcases enqueueViewportTiles_mem ctx a _ _ _ _ _ t h2 with h3 | h3
        · exact Or.inl h3
        · exact Or.inr (Or.inl ⟨h3.2.1, h3.1⟩)
      · exact Or.inr (Or.inl ⟨h2.2.1, h2.1⟩)
  · exact Or.inr (Or.inr h1)

/-- The target loop only produces next-navigation tasks whose priorities have
the `i * 0.1` target-offset shape, for target indices below the number of
registered targets. -/
theorem targetsLoop_shape (planner : PrefetchPlanner) (map : OLMap)
    (view : OLView) (act : Option ℕ) (bg : List BackgroundLayerEntry)
    (prios : CategoryPriorities) (mapSize : ℕ × ℕ) (n : ℕ) :
    ∀ (tgts : List PrefetchTarget) (i : ℕ) (ctx : PlannerCtx),
      i + tgts.length ≤ n →
      (∀ t ∈ ctx.queue, nnaShape prios n t ∧ nnbShape prios n bg t) →
      ∀ t ∈ (targetsLoop planner map view act bg prios mapSize i tgts ctx).queue,
        nnaShape prios n t ∧ nnbShape prios n bg t := by
  intro tgts
  induction tgts with
  | nil => intro i ctx _ h t ht; exact h t ht
  | cons tg rest ih =>
    intro i ctx hle h t ht
    have hi : i < n := by
      simp only [List.length_cons] at hle
      omega
    refine ih (i + 1) _ (by simp only [List.length_cons] at hle; omega) ?_ t ht
    intro u hu
    rcases targetStep_mem planner map view act bg prios mapSize i tg ctx u hu
      with h1 | h1 | h1
    · exact h u h1
    · constructor
      · intro _
        exact ⟨i, hi, h1.2⟩
      · intro hc
        rw [h1.1] at hc
        exact absurd hc (by decide)
    · obtain ⟨e, he, hcat, hlay, hpr⟩ := h1
      constructor
      · intro hc
        rw [hcat] at hc
        exact absurd hc (by decide)
      · intro _
        exact ⟨i, hi, e, he, hlay, hpr⟩

/-- In a sorted queue, a strictly smaller priority means an earlier
position. -/
theorem sorted_get_lt (q : List PrefetchTask) (hs : List.Sorted taskLE q)
    (ka kb : Fin q.length)
    (h : (q.get ka).priority < (q.get kb).priority) : (ka : ℕ) < (kb : ℕ) := by
  by_contra hc
  push_neg at hc
  rcases eq_or_lt_of_le hc with he | hl
  · have hkk : kb = ka := Fin.ext he
    rw [hkk] at h
    exact lt_irrefl _ h
  · have hle := (List.pairwise_iff_get.mp hs) kb ka hl
    exact absurd h (not_lt.mpr hle)

/-- Every task of a full planning pass satisfies the next-navigation priority
shapes: NextNavActive priorities are the category weight plus `i * 0.1`, and
NextNavBackground priorities additionally carry a registered-layer
`* 0.001` sub-offset, with `i` ranging over the registered targets. -/
theorem buildQueue_shape (planner : PrefetchPlanner) (map : OLMap)
    (act : Option ℕ) (bg : List BackgroundLayerEntry)
    (tgts : List PrefetchTarget) (prios : CategoryPriorities)
    (stats : StatsState) :
    ∀ t ∈ (PrefetchPlanner.buildQueue planner map act bg tgts prios stats).queue,
      nnaShape prios tgts.length t ∧ nnbShape prios tgts.length bg t := by
  simp only [PrefetchPlanner.buildQueue]
  rcases hv : map.view with _ | view <;> simp only [hv]
  · intro t ht
    simp at ht
  · cases hd : view.isDef <;> simp only [hd, Bool.not_false, Bool.not_true,
      Bool.false_eq_true, if_true, if_false]
    · intro t ht
      simp at ht
    · rcases hs : map.size with _ | mapSize <;> simp only [hs]
      · intro t ht
        simp at ht
      · rcases hz : view.zoom with _ | zoom <;> simp only [hz]
        · intro t ht
          simp at ht
        · rcases act with _ | a
          · intro t ht
            have ht' := (List.perm_insertionSort taskLE _).subset ht
            refine targetsLoop_shape planner map view none bg prios mapSize
              tgts.length tgts 0 _ (by omega) ?_ t ht'
            intro u hu
            rcases foldl_mem
                (fun v => v.category = PrefetchCategory.bgViewport)
                PlannerCtx.queue _ bg _
                (fun c e _ u2 hu2 => by
                  split at hu2
                  · exact Or.inl hu2
                  · rcases enqueueViewportTiles_mem c e.layer _ _ _ _ _ u2 hu2
                      with h | h
                    · exact Or.inl h
                    · exact Or.inr h.2.1)
                u hu with h1 | h1
            · simp at h1
            · exact ⟨fun hc => by rw [hc] at h1; exact absurd h1 (by decide),
                fun hc => by rw [hc] at h1; exact absurd h1 (by decide)⟩
          · intro t ht
            have ht' := (List.perm_insertionSort taskLE _).subset ht
            refine targetsLoop_shape planner map view (some a) bg prios mapSize
              tgts.length tgts 0 _ (by omega) ?_ t ht'
            intro u hu
            rcases foldl_mem
                (fun v => v.category = PrefetchCategory.bgViewport)
                PlannerCtx.queue _ bg _
                (fun c e _ u2 hu2 => by
                  split at hu2
                  · exact Or.inl hu2
                  · rcases enqueueViewportTiles_mem c e.layer _ _ _ _ _ u2 hu2
                      with h | h
                    · exact Or.inl h
                    · exact Or.inr h.2.1)
                u hu with h1 | h1
            · rcases enqueueSpatialBuffer_mem planner _ a _ _ _ _ _ u h1
                with h2 | h2
              · simp at h2
              · exact ⟨fun hc => by rw [hc] at h2; exact absurd h2.2.1 (by decide),
                  fun hc => by rw [hc] at h2; exact absurd h2.2.1 (by decide)⟩
            · exact ⟨fun hc => by rw [hc] at h1; exact absurd h1 (by decide),
                fun hc => by rw [hc] at h1; exact absurd h1 (by decide)⟩

/-- C5 (amended): in a queue built with multiple registered targets, every
next-navigation task has the target-indexed priority shape; for NextNavActive
tasks an earlier target always precedes a later one in dispatch order; for
NextNavBackground tasks the earlier target precedes the later one provided
the `* 0.001` layer sub-offsets differ by less than `(j - i) * 0.1` (that is,
layer priorities within less than `(j - i) * 100` of each other); and at the
default category weights the `i * 0.1` offset keeps NextNavActive tasks ahead
of every NextNavBackground task provided `i ≤ 9` (at most ten targets) and
layer priorities are nonnegative. -/
theorem C5_target_offset_order (planner : PrefetchPlanner) (map : OLMap)
    (act : Option ℕ) (bg : List BackgroundLayerEntry)
    (tgts : List PrefetchTarget) (prios : CategoryPriorities)
    (stats : StatsState) :
    (∀ t ∈ (PrefetchPlanner.buildQueue planner map act bg tgts prios stats).queue,
      nnaShape prios tgts.length t ∧ nnbShape prios tgts.length bg t) ∧
    (∀ (ka kb : Fin (PrefetchPlanner.buildQueue planner map act bg tgts prios
        stats).queue.length) (i j : ℕ),
      ((PrefetchPlanner.buildQueue planner map act bg tgts prios
          stats).queue.get ka).priority
        = prios.nextNavActive + (i : ℚ) * (1 / 10) →
      ((PrefetchPlanner.buildQueue planner map act bg tgts prios
          stats).queue.get kb).priority
        = prios.nextNavActive + (j : ℚ) * (1 / 10) →
      i < j → (ka : ℕ) < (kb : ℕ)) ∧
    (∀ (ka kb : Fin (PrefetchPlanner.buildQueue planner map act bg tgts prios
        stats).queue.length) (i j : ℕ) (pa pb : ℚ),
      ((PrefetchPlanner.buildQueue planner map act bg tgts prios
          stats).queue.get ka).priority
        = prios.nextNavBackground + (i : ℚ) * (1 / 10) + pa * (1 / 1000) →
      ((PrefetchPlanner.buildQueue planner map act bg tgts prios
          stats).queue.get kb).priority
        = prios.nextNavBackground + (j : ℚ) * (1 / 10) + pb * (1 / 1000) →
      i < j → pa < pb + ((j : ℚ) - (i : ℚ)) * 100 → (ka : ℕ) < (kb : ℕ)) ∧
    (prios = DEFAULT_CATEGORY_PRIORITIES →
      ∀ (ka kb : Fin (PrefetchPlanner.buildQueue planner map act bg tgts prios
          stats).queue.length) (i j : ℕ) (pb : ℚ),
      ((PrefetchPlanner.buildQueue planner map act bg tgts prios
          stats).queue.get ka).priority
        = prios.nextNavActive + (i : ℚ) * (1 / 10) →
      ((PrefetchPlanner.buildQueue planner map act bg tgts prios
          stats).queue.get kb).priority
        = prios.nextNavBackground + (j : ℚ) * (1 / 10) + pb * (1 / 1000) →
      i ≤ 9 → 0 ≤ pb → (ka : ℕ) < (kb : ℕ)) := by
  have hs := buildQueue_queue_sorted planner map act bg tgts prios stats
  refine ⟨buildQueue_shape planner map act bg tgts prios stats, ?_, ?_, ?_⟩
  · intro ka kb i j hka hkb hij
    apply sorted_get_lt _ hs
    rw [hka, hkb]
    have hc : (i : ℚ) < (j : ℚ) := by exact_mod_cast hij
    have h2 : (i : ℚ) * (1 / 10) < (j : ℚ) * (1 / 10) :=
      mul_lt_mul_of_pos_right hc (by norm_num)
    linarith
  · intro ka kb i j pa pb hka hkb hij hpp
    apply sorted_get_lt _ hs
    rw [hka, hkb]
    have hc : (i : ℚ) < (j : ℚ) := by exact_mod_cast hij
    linarith
  · intro hdef ka kb i j pb hka hkb hi9 hpb
    subst hdef
    apply sorted_get_lt _ hs
    rw [hka, hkb]
    have h4 : DEFAULT_CATEGORY_PRIORITIES.nextNavActive = 4 := rfl
    have h5 : DEFAULT_CATEGORY_PRIORITIES.nextNavBackground = 5 := rfl
    rw [h4, h5]
    have hi : (i : ℚ) ≤ 9 := by exact_mod_cast hi9
    have hj : (0 : ℚ) ≤ (j : ℚ) := by positivity
    linarith

set_option maxRecDepth 8000 in
/-- C5: the claim fails for unrestricted background-layer priorities.  With
layer priorities 0 and 200 (sub-offsets 0 and 0.2) and two targets, the
concrete queue below contains, in the same NextNavBackground category, the
task of the LATER target (index 1, layer 1, tile x = 9, priority 5.1) at
position 1, strictly before the task of the EARLIER target (index 0,
layer 2, tile x = -1, priority 5.2) at position 2: so it is false that every
earlier-target task precedes every later-target task of the same category
for every choice of registered priorities. -/
theorem C5_counterexample :
    (cexQueueC5.map fun t => (t.layer, t.tileCoord.2.1, t.category, t.priority)) =
      [(1, -1, PrefetchCategory.nextNavBackground, 5),
       (1, 9, PrefetchCategory.nextNavBackground, 51 / 10),
       (2, -1, PrefetchCategory.nextNavBackground, 26 / 5),
       (2, 9, PrefetchCategory.nextNavBackground, 53 / 10)] ∧
    ¬ (∀ ka kb : Fin cexQueueC5.length,
        (cexQueueC5.get ka).priority
            = DEFAULT_CATEGORY_PRIORITIES.nextNavBackground + (0 : ℚ) * (1 / 10)
              + 200 * (1 / 1000) →
        (cexQueueC5.get kb).priority
            = DEFAULT_CATEGORY_PRIORITIES.nextNavBackground + (1 : ℚ) * (1 / 10)
              + 0 * (1 / 1000) →
        (ka : ℕ) < (kb : ℕ)) := by
  with_unfolding_all decide

/-- C5 witness helpers: the NextNavActive witness queue has two entries. -/
theorem witQueueC5_len0 : 0 < witQueueC5.length := by
  with_unfolding_all decide

theorem witQueueC5_len1 : 1 < witQueueC5.length := by
  with_unfolding_all decide

set_option maxRecDepth 8000 in
/-- C5 witness: on the concrete two-target queue, the amended order theorem
places the target-0 NextNavActive task strictly before the target-1 one. -/
theorem C5_witness :
    ((witQueueC5.get ⟨0, witQueueC5_len0⟩).priority
        = DEFAULT_CATEGORY_PRIORITIES.nextNavActive + (0 : ℚ) * (1 / 10)) ∧
    ((witQueueC5.get ⟨1, witQueueC5_len1⟩).priority
        = DEFAULT_CATEGORY_PRIORITIES.nextNavActive + (1 : ℚ) * (1 / 10)) ∧
    ((0 : ℕ) < 1) :=
  ⟨by with_unfolding_all decide,
   by with_unfolding_all decide,
   (C5_target_offset_order ⟨1, none⟩ mockMap (some 1) [] tgtsC5
      DEFAULT_CATEGORY_PRIORITIES StatsState.initial).2.1
     ⟨0, witQueueC5_len0⟩ ⟨1, witQueueC5_len1⟩ 0 1
     (by with_unfolding_all decide) (by with_unfolding_all decide)
     (by decide)⟩
